import Mathlib

/-!
# OdooXGCET_CodeCatalyst backend: credential lifecycle

A shallow embedding of the request handlers of
`Backend/controllers/auth.controller.js` and
`Backend/controllers/admin.controller.js`.

* The persistent store (the Prisma client) is an explicit `Store` value: one
  list of rows per table, in the order the database scans them.  A handler is
  a function from the store before the call to a `Reply` and the store after.
* The collaborators whose source lies outside the controllers (password
  hashing, the JWT codec, the identifier generators, the random source, the
  SMTP transport, the clock and the server's time zone, the ids the database
  assigns) are the fields of an `Env`; every theorem holds for every `Env`.
* A request field is `Option String`: `none` is an absent (`undefined`) field.
* An exception caught by the handler's outer `try`/`catch` is forwarded with
  `next(error)`: the handler then answers `Reply.next`.
-/

namespace WorkZen

/-! ## JavaScript values -/

/-- Number of UTF-16 code units of a character. -/
def utf16Units (c : Char) : Nat :=
  if c.val.toNat < 65536 then 1 else 2

/-- The UTF-16 code units of a character. -/
def utf16Char (c : Char) : List Nat :=
  let n := c.val.toNat
  if n < 65536 then [n]
  else [55296 + (n - 65536) / 1024, 56320 + (n - 65536) % 1024]

/-- The UTF-16 code units of a string, as JavaScript holds it. -/
def toUtf16 (s : String) : List Nat :=
  s.data.flatMap utf16Char

/-- The `.length` of a JavaScript string: its number of UTF-16 code units. -/
def jsLength (s : String) : Nat :=
  (s.data.map utf16Units).sum

/-- Truthiness of a value that is a string or absent: `undefined`, `null` and
the empty string are falsy. -/
def truthy : Option String → Bool
  | none => false
  | some s => s.data != []

/-- The JavaScript expression `x || null` on a string-or-absent value. -/
def orNull (x : Option String) : Option String :=
  if truthy x then x else none

/-! ## Data model -/

/-- Row of the `Company` table. -/
structure Company where
  id : String
  name : String
  code : String
  logo : Option String
  deriving DecidableEq, Repr

/-- Row of the `User` table. -/
structure User where
  id : String
  email : String
  password : String
  firstName : String
  lastName : String
  role : String
  avatar : Option String
  phone : Option String
  department : Option String
  position : Option String
  employeeId : Option String
  companyId : Option String
  createdAt : Nat
  updatedAt : Nat
  deriving DecidableEq, Repr

/-- Row of the `Employee` table, with the fields `registerUser` writes. -/
structure Employee where
  employeeId : String
  userId : String
  email : String
  firstName : String
  lastName : String
  phone : Option String
  department : String
  position : String
  status : String
  hireDate : Nat
  salary : Nat
  companyId : String
  deriving DecidableEq, Repr

/-- Row of the `RefreshToken` table. -/
structure RefreshToken where
  token : String
  userId : String
  expiresAt : Nat
  deriving DecidableEq, Repr

/-- Row of the `PasswordResetToken` table. -/
structure PasswordResetToken where
  token : String
  userId : String
  email : String
  expiresAt : Nat
  deriving DecidableEq, Repr

/-- The persistent store behind the Prisma client. -/
structure Store where
  companies : List Company
  users : List User
  employees : List Employee
  refreshTokens : List RefreshToken
  passwordResetTokens : List PasswordResetToken
  deriving DecidableEq, Repr

/-- The store with no rows. -/
def Store.empty : Store :=
  { companies := [], users := [], employees := [], refreshTokens := [],
    passwordResetTokens := [] }

/-! ## Replies -/

/-- The `company: { select: { id, name, code, logo } }` projection. -/
structure CompanyView where
  id : String
  name : String
  code : String
  logo : Option String
  deriving DecidableEq, Repr

/-- A user as sent to the client: the row without its `password` field,
together with the selected fields of its company. -/
structure UserProfile where
  id : String
  email : String
  firstName : String
  lastName : String
  role : String
  avatar : Option String
  phone : Option String
  department : Option String
  position : Option String
  employeeId : Option String
  companyId : Option String
  company : Option CompanyView
  createdAt : Nat
  updatedAt : Nat
  deriving DecidableEq, Repr

/-- The entries `getUsers` selects. -/
structure UserSummary where
  id : String
  email : String
  firstName : String
  lastName : String
  employeeId : Option String
  role : String
  companyId : Option String
  avatar : Option String
  deriving DecidableEq, Repr

/-- The `data` member of a success body. -/
inductive Data where
  | session (accessToken refreshToken : String) (user : Option UserProfile)
  | access (accessToken : String)
  | message (message : String)
  | users (users : List UserSummary)
  deriving DecidableEq, Repr

/-- The JSON envelope `{status, message?, error?, data?}`. -/
structure Body where
  status : String
  message : Option String
  error : Option String
  data : Option Data
  deriving DecidableEq, Repr

/-- What the catch-all of a handler forwards to `next(error)`. -/
inductive Failure where
  /-- Prisma `P2002`: unique constraint failed on the fields `target`. -/
  | uniqueViolation (target : List String)
  /-- Prisma `P2025`: the record an operation depends on was not found. -/
  | recordNotFound
  /-- Prisma validation error: a `where` with no unique field given. -/
  | missingUniqueArgument
  /-- A `TypeError`: a method called on `undefined`. -/
  | typeError
  /-- The password hasher rejecting a value that is not a string. -/
  | hashRejected
  /-- The SMTP transport failing to send. -/
  | mailError
  deriving DecidableEq, Repr

/-- Outcome of a handler: a JSON answer with its HTTP status, or an error
forwarded to the error middleware. -/
inductive Reply where
  | json (status : Nat) (body : Body)
  | next (error : Failure)
  deriving DecidableEq, Repr

/-- An error envelope: `{status: "error", message, error}`. -/
def errorBody (message error : String) : Body :=
  { status := "error", message := some message, error := some error, data := none }

/-- A success envelope carrying `data`. -/
def successBody (d : Data) : Body :=
  { status := "success", message := none, error := none, data := some d }

/-- The HTTP status of a reply, when it is a JSON answer. -/
def Reply.status? : Reply → Option Nat
  | .json st _ => some st
  | .next _ => none

/-! ## Collaborators -/

/-- What `sendAccountCreationEmail` hands to the SMTP transport: the
recipient, the subject and the values interpolated into the two templates. -/
structure Mail where
  recipient : String
  subject : String
  loginId : String
  password : String
  firstName : String
  resetToken : String
  deriving DecidableEq, Repr

/-- The collaborators of the controllers during one handler call. -/
structure Env where
  /-- `comparePassword(plain, digest)` of `password.utils.js`. -/
  comparePassword : String → String → Bool
  /-- `hashPassword(plain)` of `password.utils.js`, on a string. -/
  hashPassword : String → String
  /-- `generateAccessToken(userId)` of `jwt.utils.js`. -/
  generateAccessToken : String → String
  /-- `generateRefreshToken(userId)` of `jwt.utils.js`. -/
  generateRefreshToken : String → String
  /-- `verifyRefreshToken(token)` of `jwt.utils.js`: the `userId` claim, or
  `none` when it throws (bad signature, malformed payload, expiry). -/
  verifyRefreshToken : String → Option String
  /-- `generateCompanyCode(companyName)` of `employee.utils.js`, which may
  read the store. -/
  generateCompanyCode : Store → String → String
  /-- `generateEmployeeId(code, firstName, lastName, hireDate, companyId)` of
  `employee.utils.js`, which may read the store. -/
  generateEmployeeId : Store → String → String → String → Nat → String → String
  /-- The hex string `crypto.randomBytes(32)` yields in this call. -/
  randomHex : String
  /-- Whether `transporter.sendMail` returns (`true`) or throws (`false`). -/
  sendMail : Mail → Bool
  /-- `String.prototype.toUpperCase`, on the string given by its UTF-16 code
  units (a JavaScript string may end in half a surrogate pair). -/
  toUpperCase : List Nat → String
  /-- The offset of the server's local time zone, in milliseconds, as
  ECMAScript's `LocalTZA(t, isUTC)`: for `isUTC = true` the offset in effect at
  the instant `t`; for `isUTC = false` the offset by which the local
  wall-clock value `t` is read (the one before the transition when the zone
  shows `t` twice or skips it). -/
  localTZA : Int → Bool → Int
  /-- The readings of the clock, in milliseconds since the epoch: `clock k` is
  what the `new Date()` or `Date.now()` at the `k`-th place of the handler's
  text (counting from 0) sees. -/
  clock : Nat → Nat
  /-- The time the database stamps on `createdAt` and `updatedAt`. -/
  dbNow : Nat
  /-- The id the database gives the company it creates. -/
  newCompanyId : String
  /-- The id the database gives the user it creates. -/
  newUserId : String

/-- Milliseconds in an hour. -/
def msPerHour : Nat := 3600000

/-- Milliseconds in a day. -/
def msPerDay : Nat := 24 * msPerHour

/-- ECMAScript's `LocalTime(t)`: the local wall-clock value of the instant
`t`. -/
def localTime (env : Env) (t : Nat) : Int :=
  (t : Int) + env.localTZA t true

/-- ECMAScript's `UTC(t)`: the instant at which the local wall clock shows
`t`.  Instants are counted from the epoch on, as the clock readings are. -/
def utcOfLocal (env : Env) (t : Int) : Nat :=
  (t - env.localTZA t false).toNat

/-- The `d.setDate(d.getDate() + n)` idiom: arithmetic on the local wall
clock, `n` days later on that clock at the same time of day. -/
def addDays (env : Env) (d n : Nat) : Nat :=
  utcOfLocal env (localTime env d + ((n * msPerDay : Nat) : Int))

/-- The `d.setHours(d.getHours() + n)` idiom: arithmetic on the local wall
clock, `n` hours later on that clock. -/
def addHours (env : Env) (d n : Nat) : Nat :=
  utcOfLocal env (localTime env d + ((n * msPerHour : Nat) : Int))

/-! ## Store operations (Prisma client) -/

/-- The `company` relation of a user row under
`include: { company: { select: { id, name, code, logo } } }`. -/
def companyView (s : Store) (companyId : Option String) : Option CompanyView :=
  match companyId with
  | none => none
  | some cid =>
    (s.companies.find? (fun c => c.id = cid)).map
      (fun c => { id := c.id, name := c.name, code := c.code, logo := c.logo })

/-- The expression `const { password: _, ...userWithoutPassword } = user` on a
row fetched with its company. -/
def withoutPassword (s : Store) (u : User) : UserProfile :=
  { id := u.id, email := u.email, firstName := u.firstName, lastName := u.lastName,
    role := u.role, avatar := u.avatar, phone := u.phone, department := u.department,
    position := u.position, employeeId := u.employeeId, companyId := u.companyId,
    company := companyView s u.companyId, createdAt := u.createdAt,
    updatedAt := u.updatedAt }

/-- The query `user.findFirst({ where: { OR: [{ email }, { employeeId }] } })`. -/
def findUserByLoginId (s : Store) (loginId : String) : Option User :=
  s.users.find? (fun u => u.email = loginId ∨ u.employeeId = some loginId)

/-- The query `user.findUnique({ where: { email } })`. -/
def findUserByEmail (s : Store) (email : String) : Option User :=
  s.users.find? (fun u => u.email = email)

/-- The query `user.findUnique({ where: { id } })`. -/
def findUserById (s : Store) (id : String) : Option User :=
  s.users.find? (fun u => u.id = id)

/-- The query `company.findUnique({ where: { name } })`. -/
def findCompanyByName (s : Store) (name : String) : Option Company :=
  s.companies.find? (fun c => c.name = name)

/-- The query `refreshToken.findUnique({ where: { token } })`. -/
def findRefreshToken (s : Store) (token : String) : Option RefreshToken :=
  s.refreshTokens.find? (fun r => r.token = token)

/-- The call `refreshToken.create({ data })`; `token` is a unique column. -/
def createRefreshToken (s : Store) (r : RefreshToken) : Except Failure Store :=
  if s.refreshTokens.any (fun x => x.token = r.token) then
    .error (.uniqueViolation ["token"])
  else
    .ok { s with refreshTokens := s.refreshTokens ++ [r] }

/-- The call `refreshToken.delete({ where: { token } })`: Prisma's `delete`
throws `P2025` when no row matches; otherwise the rows with that token (one,
the column being unique) are removed. -/
def deleteRefreshToken (s : Store) (token : String) : Except Failure Store :=
  if s.refreshTokens.any (fun x => x.token = token) then
    .ok { s with refreshTokens := s.refreshTokens.filter (fun x => ¬ x.token = token) }
  else
    .error .recordNotFound

/-- The call `passwordResetToken.create({ data })`; `token` is a unique
column. -/
def createPasswordResetToken (s : Store) (r : PasswordResetToken) : Except Failure Store :=
  if s.passwordResetTokens.any (fun x => x.token = r.token) then
    .error (.uniqueViolation ["token"])
  else
    .ok { s with passwordResetTokens := s.passwordResetTokens ++ [r] }

/-! ## `auth.controller.js` -/

/-- The 400 answer of `login`. -/
def loginValidationError : Reply :=
  .json 400 (errorBody "Login ID and password are required" "Validation Error")

/-- The 401 answer of `login`, written twice in the source with the same
members. -/
def loginUnauthorized : Reply :=
  .json 401 (errorBody "Invalid login ID or password" "Unauthorized")

/-- The handler `login`. -/
def login (env : Env) (s : Store) (loginId password : Option String) : Reply × Store :=
  if !truthy loginId || !truthy password then (loginValidationError, s)
  else
    match loginId, password with
    | some l, some p =>
      match findUserByLoginId s l with
      | none => (loginUnauthorized, s)
      | some user =>
        if !env.comparePassword p user.password then (loginUnauthorized, s)
        else
          let accessToken := env.generateAccessToken user.id
          let refreshToken := env.generateRefreshToken user.id
          let expiresAt := addDays env (env.clock 0) 7
          match createRefreshToken s
              { token := refreshToken, userId := user.id, expiresAt := expiresAt } with
          | .error e => (.next e, s)
          | .ok s1 =>
            (.json 200 (successBody (.session accessToken refreshToken
              (some (withoutPassword s user)))), s1)
    | _, _ => (loginValidationError, s)

/-- The 200 answer of `logout`. -/
def logoutSuccess : Reply :=
  .json 200 { status := "success", message := some "Logged out successfully",
              error := none, data := none }

/-- The test `authHeader.startsWith("Bearer ")`. -/
def startsWithBearer (h : String) : Bool :=
  "Bearer ".data.isPrefixOf h.data

/-- The expression `authHeader.substring(7)`, after the seven one-unit
characters of `"Bearer "`. -/
def substring7 (h : String) : String :=
  String.mk (h.data.drop 7)

/-- The handler `logout`, on the `Authorization` header of the request. -/
def logout (s : Store) (authHeader : Option String) : Reply × Store :=
  match authHeader with
  | some h =>
    if truthy (some h) && startsWithBearer h then
      match deleteRefreshToken s (substring7 h) with
      | .error e => (.next e, s)
      | .ok s1 => (logoutSuccess, s1)
    else (logoutSuccess, s)
  | none => (logoutSuccess, s)

/-- The 401 answer of `refresh` when the verifier throws. -/
def refreshInvalid : Reply :=
  .json 401 (errorBody "Invalid refresh token" "Unauthorized")

/-- The 401 answer of `refresh` when the record is absent or expired. -/
def refreshExpired : Reply :=
  .json 401 (errorBody "Refresh token expired or invalid" "Unauthorized")

/-- The handler `refresh`.  An absent token is a malformed one: the verifier
throws on it. -/
def refresh (env : Env) (s : Store) (refreshToken : Option String) : Reply × Store :=
  match refreshToken with
  | none => (refreshInvalid, s)
  | some t =>
    match env.verifyRefreshToken t with
    | none => (refreshInvalid, s)
    | some userId =>
      match findRefreshToken s t with
      | none => (refreshExpired, s)
      | some tokenRecord =>
        if tokenRecord.expiresAt < env.clock 0 then (refreshExpired, s)
        else (.json 200 (successBody (.access (env.generateAccessToken userId))), s)

/-! ### Strings in `registerUser` -/

/-- The characters `String.prototype.trim` strips: ECMAScript white space and
line terminators. -/
def isJsWhitespace (c : Char) : Bool :=
  let n := c.val.toNat
  n == 9 || n == 10 || n == 11 || n == 12 || n == 13 || n == 32 || n == 160 ||
  n == 5760 || (8192 ≤ n && n ≤ 8202) || n == 8232 || n == 8233 || n == 8239 ||
  n == 8287 || n == 12288 || n == 65279

/-- The method `trim` on a list of characters. -/
def trimChars (cs : List Char) : List Char :=
  ((cs.dropWhile isJsWhitespace).reverse.dropWhile isJsWhitespace).reverse

/-- The call `x.split(" ")` on a list of characters: the pieces between single
spaces, at least one piece. -/
def splitSpace : List Char → List (List Char)
  | [] => [[]]
  | c :: cs =>
    if c = ' ' then [] :: splitSpace cs
    else
      match splitSpace cs with
      | [] => [[c]]
      | p :: ps => (c :: p) :: ps

/-- The call `parts.join(" ")`. -/
def joinSpace : List (List Char) → List Char
  | [] => []
  | [p] => p
  | p :: q :: ps => p ++ ' ' :: joinSpace (q :: ps)

/-- The statement `const nameParts = name.trim().split(" ")`. -/
def nameParts (name : String) : List (List Char) :=
  splitSpace (trimChars name.data)

/-- The expression `nameParts[0] || ""`. -/
def firstNameOf (name : String) : String :=
  String.mk ((nameParts name).headD [])

/-- The expression `nameParts.slice(1).join(" ") || firstName`. -/
def lastNameOf (name : String) : String :=
  let rest := joinSpace ((nameParts name).drop 1)
  if rest = [] then firstNameOf name else String.mk rest

/-- The expression `x.toString().slice(-4)` on a clock reading. -/
def lastFourDigits (n : Nat) : String :=
  let ds := (Nat.repr n).data
  String.mk (ds.drop (ds.length - 4))

/-- The fallback company code
`companyName.substring(0, 2).toUpperCase() + Date.now().toString().slice(-4)`. -/
def fallbackCode (env : Env) (companyName : String) (now : Nat) : String :=
  env.toUpperCase ((toUtf16 companyName).take 2) ++ lastFourDigits now

/-! ### Creating rows in `registerUser` -/

/-- The call `company.create({ data })`; `name` and `code` are unique
columns. -/
def createCompany (s : Store) (c : Company) : Except Failure Store :=
  if s.companies.any (fun x => x.name = c.name) then .error (.uniqueViolation ["name"])
  else if s.companies.any (fun x => x.code = c.code) then .error (.uniqueViolation ["code"])
  else .ok { s with companies := s.companies ++ [c] }

/-- The call `user.create({ data })`; `email` and `employeeId` are unique
columns. -/
def createUser (s : Store) (u : User) : Except Failure Store :=
  if s.users.any (fun x => x.email = u.email) then .error (.uniqueViolation ["email"])
  else if u.employeeId.isSome && s.users.any (fun x => x.employeeId = u.employeeId) then
    .error (.uniqueViolation ["employeeId"])
  else .ok { s with users := s.users ++ [u] }

/-- The call `employee.create({ data })`; `employeeId` is a unique column. -/
def createEmployee (s : Store) (e : Employee) : Except Failure Store :=
  if s.employees.any (fun x => x.employeeId = e.employeeId) then
    .error (.uniqueViolation ["employeeId"])
  else .ok { s with employees := s.employees ++ [e] }

/-- The body of a registration request. -/
structure RegisterBody where
  companyName : Option String
  name : Option String
  email : Option String
  phone : Option String
  password : Option String
  companyLogo : Option String
  deriving DecidableEq, Repr

/-- The 403 answer of `registerUser`. -/
def registrationDisabled : Reply :=
  .json 403 (errorBody
    "Registration is disabled. Please contact your HR or Admin to create an account."
    "Forbidden")

/-- The 400 answer of `registerUser` on the company name. -/
def companyNameInvalid : Reply :=
  .json 400 (errorBody "Company name is required and must be at least 2 characters"
    "Validation Error")

/-- The 400 answer of `registerUser` on an email already registered. -/
def emailTaken : Reply :=
  .json 400 (errorBody "User with this email already exists" "Validation Error")

/-- The 400 answer of `registerUser` on the split name. -/
def nameTooShort : Reply :=
  .json 400 (errorBody "First name and last name must each be at least 2 characters long"
    "Validation Error")

/-- Lines 205-236 of `registerUser`: find the company by name, or create it
with the generated code, falling back to the time-derived code when the create
fails on the uniqueness of `code`. -/
def findOrCreateCompany (env : Env) (s : Store) (companyName : String)
    (companyLogo : Option String) : Except Failure (Company × Store) :=
  match findCompanyByName s companyName with
  | some company => .ok (company, s)
  | none =>
    let companyCode := env.generateCompanyCode s companyName
    let company : Company :=
      { id := env.newCompanyId, name := companyName, code := companyCode,
        logo := orNull companyLogo }
    match createCompany s company with
    | .ok s1 => .ok (company, s1)
    | .error (.uniqueViolation target) =>
      if target.contains "code" then
        let fallback : Company :=
          { id := env.newCompanyId, name := companyName,
            code := fallbackCode env companyName (env.clock 0),
            logo := orNull companyLogo }
        match createCompany s fallback with
        | .ok s1 => .ok (fallback, s1)
        | .error e => .error e
      else .error (.uniqueViolation target)
    | .error e => .error e

/-- Lines 252-363 of `registerUser`: the admin user, its employee record and
its first refresh token. -/
def createAdmin (env : Env) (s : Store) (company : Company) (firstName lastName : String)
    (email : String) (phone password : Option String) : Reply × Store :=
  let hireDate := env.clock 1
  let employeeId :=
    env.generateEmployeeId s company.code firstName lastName hireDate company.id
  match password with
  | none => (.next .hashRejected, s)
  | some pw =>
    let user : User :=
      { id := env.newUserId, email := email, password := env.hashPassword pw,
        firstName := firstName, lastName := lastName, role := "admin", avatar := none,
        phone := orNull phone, department := some "General", position := some "Owner",
        employeeId := some employeeId, companyId := some company.id,
        createdAt := env.dbNow, updatedAt := env.dbNow }
    match createUser s user with
    | .error e => (.next e, s)
    | .ok s1 =>
      let employee : Employee :=
        { employeeId := employeeId, userId := user.id, email := email,
          firstName := firstName, lastName := lastName, phone := orNull phone,
          department := "General", position := "Owner", status := "active",
          hireDate := hireDate, salary := 0, companyId := company.id }
      match createEmployee s1 employee with
      | .error e => (.next e, s1)
      | .ok s2 =>
        let accessToken := env.generateAccessToken user.id
        let refreshToken := env.generateRefreshToken user.id
        let expiresAt := addDays env (env.clock 2) 7
        match createRefreshToken s2
            { token := refreshToken, userId := user.id, expiresAt := expiresAt } with
        | .error e => (.next e, s2)
        | .ok s3 =>
          let userWithCompany := (findUserById s3 user.id).map (withoutPassword s3)
          (.json 201 (successBody (.session accessToken refreshToken userWithCompany)), s3)

/-- The handler `registerUser`. -/
def registerUser (env : Env) (s : Store) (body : RegisterBody) : Reply × Store :=
  if (s.companies.take 1).length > 0 then (registrationDisabled, s)
  else
    match body.companyName with
    | none => (companyNameInvalid, s)
    | some companyName =>
      if !truthy (some companyName) || jsLength companyName < 2 then (companyNameInvalid, s)
      else
        match body.email with
        | none => (.next .missingUniqueArgument, s)
        | some email =>
          match findUserByEmail s email with
          | some _ => (emailTaken, s)
          | none =>
            match findOrCreateCompany env s companyName body.companyLogo with
            | .error e => (.next e, s)
            | .ok (company, s1) =>
              match body.name with
              | none => (.next .typeError, s1)
              | some name =>
                let firstName := firstNameOf name
                let lastName := lastNameOf name
                if jsLength firstName < 2 || jsLength lastName < 2 then (nameTooShort, s1)
                else createAdmin env s1 company firstName lastName email body.phone
                  body.password

/-! ## `email.utils.js` -/

/-- The function `generatePasswordResetToken`: 32 random bytes in hex. -/
def generatePasswordResetToken (env : Env) : String :=
  env.randomHex

/-- The function `sendAccountCreationEmail`: it returns `true` when the
transport has sent the mail and rethrows what the transport throws. -/
def sendAccountCreationEmail (env : Env) (email loginId password firstName
    resetToken : String) : Except Failure Bool :=
  let mailOptions : Mail :=
    { recipient := email,
      subject := "Welcome to WorkZen HRMS - Your Account Credentials",
      loginId := loginId, password := password, firstName := firstName,
      resetToken := resetToken }
  if env.sendMail mailOptions then .ok true else .error .mailError

/-! ## `admin.controller.js` -/

/-- The 404 answer of both admin handlers. -/
def userNotFound : Reply :=
  .json 404 (errorBody "User not found" "Not Found")

/-- The 403 answer of `sendCredentials`. -/
def sendCredentialsForbidden : Reply :=
  .json 403 (errorBody "You can only send credentials to users in your company" "Forbidden")

/-- The 200 answer of `sendCredentials`. -/
def sendCredentialsSuccess : Reply :=
  .json 200 (successBody (.message "Login credentials sent successfully via email"))

/-- The test `admin.companyId && user.companyId !== admin.companyId`. -/
def crossCompany (admin : UserProfile) (user : User) : Bool :=
  truthy admin.companyId && user.companyId != admin.companyId

/-- The expression `user.employeeId || user.email`. -/
def loginIdOf (user : User) : String :=
  match user.employeeId with
  | some e => if truthy (some e) then e else user.email
  | none => user.email

/-- The handler `sendCredentials`, for the `userId` of the route and the
authenticated `req.user`. -/
def sendCredentials (env : Env) (s : Store) (userId : String) (admin : UserProfile) :
    Reply × Store :=
  match findUserById s userId with
  | none => (userNotFound, s)
  | some user =>
    if crossCompany admin user then (sendCredentialsForbidden, s)
    else
      let resetToken := generatePasswordResetToken env
      let expiresAt := addHours env (env.clock 0) 1
      match createPasswordResetToken s
          { token := resetToken, userId := user.id, email := user.email,
            expiresAt := expiresAt } with
      | .error e => (.next e, s)
      | .ok s1 =>
        match sendAccountCreationEmail env user.email (loginIdOf user)
            "Your password has been reset. Please use the link below to set a new password."
            user.firstName resetToken with
        | .ok _ => (sendCredentialsSuccess, s1)
        | .error _ => (sendCredentialsSuccess, s1)

/-- The 400 answer of `updateUserPassword`. -/
def passwordTooShort : Reply :=
  .json 400 (errorBody "Password must be at least 8 characters long" "Validation Error")

/-- The 403 answer of `updateUserPassword`. -/
def updatePasswordForbidden : Reply :=
  .json 403 (errorBody "You can only update passwords for users in your company" "Forbidden")

/-- The 200 answer of `updateUserPassword`. -/
def updatePasswordSuccess : Reply :=
  .json 200 (successBody (.message "Password updated successfully"))

/-- The call `user.update({ where: { id }, data: { password } })`: Prisma's
`update` throws `P2025` when no row has the id; the row's `updatedAt` is
stamped by the database. -/
def updateUserPasswordRow (s : Store) (id hashed : String) (now : Nat) :
    Except Failure Store :=
  if s.users.any (fun u => u.id = id) then
    .ok { s with users := s.users.map (fun u =>
      if u.id = id then { u with password := hashed, updatedAt := now } else u) }
  else .error .recordNotFound

/-- The handler `updateUserPassword`, for the `userId` of the route, the
`password` of the body and the authenticated `req.user`. -/
def updateUserPassword (env : Env) (s : Store) (userId : String) (password : Option String)
    (admin : UserProfile) : Reply × Store :=
  match password with
  | none => (passwordTooShort, s)
  | some pw =>
    if !truthy (some pw) || jsLength pw < 8 then (passwordTooShort, s)
    else
      match findUserById s userId with
      | none => (userNotFound, s)
      | some user =>
        if crossCompany admin user then (updatePasswordForbidden, s)
        else
          match updateUserPasswordRow s userId (env.hashPassword pw) env.dbNow with
          | .error e => (.next e, s)
          | .ok s1 => (updatePasswordSuccess, s1)

/-! ### `getUsers` -/

/-- The `select` of `getUsers`: id, email, names, employee id, role, company
id and avatar of a row. -/
def userSummary (u : User) : UserSummary :=
  { id := u.id, email := u.email, firstName := u.firstName, lastName := u.lastName,
    employeeId := u.employeeId, role := u.role, companyId := u.companyId,
    avatar := u.avatar }

/-- The order `orderBy: { createdAt: 'desc' }` asks for: `a` may come before
`b` when `a` was created no earlier than `b`. -/
def newerFirst (a b : User) : Prop :=
  b.createdAt ≤ a.createdAt

instance : DecidableRel newerFirst :=
  fun a b => inferInstanceAs (Decidable (b.createdAt ≤ a.createdAt))

/-- The query `user.findMany({ where, orderBy: { createdAt: 'desc' } })`, where
`where` is empty (`none`) or `{ companyId }`.  Rows created at the same instant
stay in scan order. -/
def findManyUsers (s : Store) (whereCompanyId : Option String) : List User :=
  let rows :=
    match whereCompanyId with
    | none => s.users
    | some c => s.users.filter (fun u => u.companyId = some c)
  rows.insertionSort newerFirst

/-- The handler `getUsers`, for the authenticated `req.user`. -/
def getUsers (s : Store) (user : UserProfile) : Reply × Store :=
  let whereCompanyId := if truthy user.companyId then user.companyId else none
  let users := (findManyUsers s whereCompanyId).map userSummary
  (.json 200 (successBody (.users users)), s)

/-! ## A concrete environment and concrete stores -/

/-- A toy environment: the digest of `p` is `"hash:" ++ p`, tokens are the
user id behind a tag, the transport always sends. -/
def demoEnv : Env :=
  { comparePassword := fun p h => decide (h = "hash:" ++ p)
    hashPassword := fun p => "hash:" ++ p
    generateAccessToken := fun u => "access:" ++ u
    generateRefreshToken := fun u => "refresh:" ++ u
    verifyRefreshToken := fun t =>
      if "refresh:".data.isPrefixOf t.data then some (String.mk (t.data.drop 8)) else none
    generateCompanyCode := fun _ n => String.mk (n.data.take 2)
    generateEmployeeId := fun _ code f l _ _ =>
      code ++ String.mk (f.data.take 2) ++ String.mk (l.data.take 2) ++ "0001"
    randomHex := "00ff"
    sendMail := fun _ => true
    toUpperCase := fun units => String.mk (units.map (fun n => (Char.ofNat n).toUpper))
    localTZA := fun _ _ => 0
    clock := fun _ => 1000
    dbNow := 1000
    newCompanyId := "c1"
    newUserId := "u1" }

/-- A user row of company `"c1"`. -/
def demoUser : User :=
  { id := "u1", email := "jane@acme.com", password := "hash:securePass1",
    firstName := "Jane", lastName := "Doe", role := "admin", avatar := none,
    phone := none, department := some "General", position := some "Owner",
    employeeId := some "ACJADO0001", companyId := some "c1",
    createdAt := 1000, updatedAt := 1000 }

/-- A store with one company, its admin and one session of that admin. -/
def demoStore : Store :=
  { companies := [{ id := "c1", name := "Acme Corp", code := "AC", logo := none }]
    users := [demoUser]
    employees := []
    refreshTokens := [{ token := "refresh:u1", userId := "u1", expiresAt := 5000 }]
    passwordResetTokens := [] }

/-- An authenticated admin with the given company scope. -/
def demoAdmin (companyId : Option String) : UserProfile :=
  { id := "a1", email := "root@acme.com", firstName := "Root", lastName := "Admin",
    role := "admin", avatar := none, phone := none, department := none, position := none,
    employeeId := none, companyId := companyId, company := none,
    createdAt := 0, updatedAt := 0 }

/-- The registration request of the spec's example. -/
def demoBody : RegisterBody :=
  { companyName := some "Acme Corp", name := some "Jane Doe",
    email := some "jane@acme.com", phone := none, password := some "securePass1",
    companyLogo := none }

/-- The store of `demoStore` before its admin has logged in. -/
def demoStoreNoSession : Store :=
  { demoStore with refreshTokens := [] }

/-! ## Properties stated over replies and stores -/

/-- A successful login or registration answer with the given status: a success
envelope carrying an access token and a refresh token. -/
def Reply.IsSession (r : Reply) (status : Nat) : Prop :=
  ∃ a t u, r = .json status (successBody (.session a t u))

/-- An answer of the Unauthorized class: status 401 with error tag
`"Unauthorized"`. -/
def Reply.IsUnauthorized (r : Reply) : Prop :=
  ∃ m, r = .json 401 (errorBody m "Unauthorized")

/-- The `error` tag of a JSON answer. -/
def Reply.errorTag? : Reply → Option String
  | .json _ b => b.error
  | .next _ => none

/-- The unique constraint on `RefreshToken.token`. -/
def UniqueRefreshTokens (s : Store) : Prop :=
  (s.refreshTokens.map (fun r => r.token)).Nodup

instance (s : Store) : Decidable (UniqueRefreshTokens s) :=
  inferInstanceAs (Decidable (List.Nodup _))

/-- The condition of the spec for `refresh` to succeed: the token is present
and verifies, and a record with that token string is in the store and not past
its stored expiry at the time of the call. -/
def RefreshValid (env : Env) (s : Store) (refreshToken : Option String) : Prop :=
  ∃ t, refreshToken = some t ∧ (∃ userId, env.verifyRefreshToken t = some userId) ∧
    ∃ r ∈ s.refreshTokens, r.token = t ∧ ¬ r.expiresAt < env.clock 0

/-- The store after the first registration, made with the empty password. -/
def storeAfterEmptyPassword : Store :=
  (registerUser demoEnv Store.empty { demoBody with password := some "" }).2

/-- A store with no company in which `demoUser` is registered. -/
def storeWithUserOnly : Store :=
  { Store.empty with users := [demoUser] }

/-- A second user of company `"c1"`, created after `demoUser`. -/
def demoUser2 : User :=
  { id := "u2", email := "raj@acme.com", password := "hash:otherPass22",
    firstName := "Raj", lastName := "Shah", role := "employee", avatar := none,
    phone := none, department := some "Sales", position := some "Agent",
    employeeId := some "ACRASH0001", companyId := some "c1",
    createdAt := 2000, updatedAt := 2000 }

/-- A user of another company, created last. -/
def demoUser3 : User :=
  { id := "u3", email := "li@other.org", password := "hash:thirdPass33",
    firstName := "Li", lastName := "Wei", role := "employee", avatar := none,
    phone := none, department := none, position := none,
    employeeId := some "OTLIWE0001", companyId := some "c2",
    createdAt := 3000, updatedAt := 3000 }

/-- The store `demoStore` with three users, the oldest first. -/
def demoStoreThreeUsers : Store :=
  { demoStore with users := [demoUser, demoUser2, demoUser3] }

/-- The first name in the spec's words: the part of the trimmed name before
its first space. -/
def specFirstName (name : String) : String :=
  String.mk ((trimChars name.data).takeWhile (fun c => c ≠ ' '))

/-- The last name in the spec's words: the rest of the trimmed name after its
first space, a one-word name being its own last name. -/
def specLastName (name : String) : String :=
  if ' ' ∈ trimChars name.data then
    String.mk (((trimChars name.data).dropWhile (fun c => c ≠ ' ')).drop 1)
  else specFirstName name

/-- The time-zone offset of a server on New York time around the end of
daylight saving on 2024-11-03: four hours behind UTC before 06:00 UTC (a wall
clock before 02:00), five hours behind from then on. -/
def newYorkTZA (t : Int) (isUTC : Bool) : Int :=
  if isUTC then (if t < 1730613600000 then -14400000 else -18000000)
  else (if t < 1730599200000 then -14400000 else -18000000)

/-- The toy environment on New York time at 2024-11-03 05:30:00 UTC, which is
01:30 on the wall clock, half an hour before daylight saving ends. -/
def newYorkEnv : Env :=
  { demoEnv with localTZA := newYorkTZA, clock := fun _ => 1730611800000 }

/-! ## Lemmas on JavaScript values and store queries -/

theorem truthy_some_iff (x : String) : truthy (some x) = true ↔ x ≠ "" := by
  cases x with
  | mk d =>
    cases d with
    | nil => simp [truthy]
    | cons c cs => simp [truthy, String.ext_iff]

theorem truthy_eq_true_iff (o : Option String) :
    truthy o = true ↔ ∃ x, o = some x ∧ x ≠ "" := by
  cases o with
  | none => simp [truthy]
  | some x => simp [truthy_some_iff]

theorem utf16Units_pos (c : Char) : 1 ≤ utf16Units c := by
  unfold utf16Units; split <;> omega

theorem jsLength_empty : jsLength "" = 0 := rfl

theorem utf16Char_length (c : Char) : (utf16Char c).length = utf16Units c := by
  unfold utf16Char utf16Units
  dsimp only
  split <;> rfl

/-- The two counts of UTF-16 code units agree. -/
theorem jsLength_eq_toUtf16_length (s : String) : jsLength s = (toUtf16 s).length := by
  unfold jsLength toUtf16
  induction s.data with
  | nil => rfl
  | cons c cs ih => simp [List.flatMap_cons, utf16Char_length, ih]

theorem truthy_of_jsLength_pos (x : String) (h : 0 < jsLength x) : truthy (some x) = true := by
  rw [truthy_some_iff]
  intro hx
  rw [hx, jsLength_empty] at h
  exact Nat.lt_irrefl 0 h

theorem startsWithBearer_append (t : String) : startsWithBearer ("Bearer " ++ t) = true := by
  simp [startsWithBearer, String.data_append]

theorem substring7_append (t : String) : substring7 ("Bearer " ++ t) = t := by
  simp [substring7, String.data_append]

theorem findRefreshToken_eq_none_iff (s : Store) (t : String) :
    findRefreshToken s t = none ↔ ∀ r ∈ s.refreshTokens, r.token ≠ t := by
  simp [findRefreshToken, List.find?_eq_none]

theorem findRefreshToken_some_token (s : Store) (t : String) (r : RefreshToken)
    (h : findRefreshToken s t = some r) : r ∈ s.refreshTokens ∧ r.token = t := by
  unfold findRefreshToken at h
  refine ⟨List.mem_of_find?_eq_some h, ?_⟩
  simpa using List.find?_some h

theorem findUserByLoginId_eq_none_iff (s : Store) (l : String) :
    findUserByLoginId s l = none ↔
      ∀ u ∈ s.users, u.email ≠ l ∧ u.employeeId ≠ some l := by
  simp [findUserByLoginId, List.find?_eq_none]

theorem find_refreshToken_of_unique (l : List RefreshToken)
    (hn : (l.map (fun r => r.token)).Nodup) (r : RefreshToken) (hr : r ∈ l) :
    l.find? (fun x => x.token = r.token) = some r := by
  induction l with
  | nil => cases hr
  | cons a as ih =>
    rw [List.map_cons, List.nodup_cons] at hn
    rcases List.mem_cons.mp hr with rfl | hmem
    · simp
    · have hne : a.token ≠ r.token := by
        intro h
        apply hn.1
        rw [h]
        exact List.mem_map_of_mem (fun r => r.token) hmem
      rw [List.find?_cons_of_neg _ (by simpa using hne)]
      exact ih hn.2 hmem

theorem findRefreshToken_of_unique (s : Store) (hu : UniqueRefreshTokens s)
    (r : RefreshToken) (hr : r ∈ s.refreshTokens) : findRefreshToken s r.token = some r :=
  find_refreshToken_of_unique s.refreshTokens hu r hr

theorem createRefreshToken_eq_ok_iff (s s1 : Store) (r : RefreshToken) :
    createRefreshToken s r = .ok s1 ↔
      (∀ x ∈ s.refreshTokens, x.token ≠ r.token) ∧
        s1 = { s with refreshTokens := s.refreshTokens ++ [r] } := by
  unfold createRefreshToken
  split
  · rename_i h
    simp only [List.any_eq_true, decide_eq_true_eq] at h
    obtain ⟨x, hx, hxt⟩ := h
    constructor
    · intro h; cases h
    · rintro ⟨h, -⟩; exact absurd hxt (h x hx)
  · rename_i h
    simp only [List.any_eq_true, decide_eq_true_eq, not_exists, not_and] at h
    constructor
    · intro h1
      refine ⟨h, ?_⟩
      cases h1; rfl
    · rintro ⟨-, rfl⟩; rfl

theorem deleteRefreshToken_of_mem (s : Store) (t : String)
    (h : ∃ r ∈ s.refreshTokens, r.token = t) :
    deleteRefreshToken s t =
      .ok { s with refreshTokens := s.refreshTokens.filter (fun x => ¬ x.token = t) } := by
  unfold deleteRefreshToken
  rw [if_pos]
  simpa using h

theorem deleteRefreshToken_of_absent (s : Store) (t : String)
    (h : ∀ r ∈ s.refreshTokens, r.token ≠ t) :
    deleteRefreshToken s t = .error .recordNotFound := by
  unfold deleteRefreshToken
  rw [if_neg]
  simpa using h

/-! ## `login` -/

/-- Claim C1, as amended.  For every store, login id and password, `login`
answers 200 with an access token and a refresh token if and only if the login
id and the password are both present and non-empty, the lookup by email or
employee id finds a user (the first match in store order), the password
verifies against that user's stored hash, and the refresh token generated for
the session is not already stored. -/
theorem login_succeeds_iff (env : Env) (s : Store) (loginId password : Option String) :
    (login env s loginId password).1.IsSession 200 ↔
      ∃ l p u, loginId = some l ∧ password = some p ∧ l ≠ "" ∧ p ≠ "" ∧
        findUserByLoginId s l = some u ∧ env.comparePassword p u.password = true ∧
        ∀ r ∈ s.refreshTokens, r.token ≠ env.generateRefreshToken u.id := by
  unfold login
  constructor
  · intro h
    split at h
    · obtain ⟨a, t, u, h⟩ := h; simp [loginValidationError, successBody, errorBody] at h
    · rename_i hg
      split at h
      · rename_i l p
        simp only [Bool.or_eq_true, Bool.not_eq_true', not_or, Bool.not_eq_false,
          truthy_some_iff] at hg
        split at h
        · obtain ⟨a, t, u, h⟩ := h; simp [loginUnauthorized, successBody, errorBody] at h
        · rename_i user hf
          split at h
          · obtain ⟨a, t, u, h⟩ := h; simp [loginUnauthorized, successBody, errorBody] at h
          · rename_i hc
            dsimp only at h
            split at h
            · obtain ⟨a, t, u, h⟩ := h; simp at h
            · rename_i s1 hcr
              refine ⟨l, p, user, rfl, rfl, hg.1, hg.2, hf, by simpa using hc, ?_⟩
              exact ((createRefreshToken_eq_ok_iff _ _ _).mp hcr).1
      · obtain ⟨a, t, u, h⟩ := h; simp [loginValidationError, successBody, errorBody] at h
  · rintro ⟨l, p, u, rfl, rfl, hl, hp, hf, hc, hfresh⟩
    have hl' := (truthy_some_iff l).mpr hl
    have hp' := (truthy_some_iff p).mpr hp
    have hcr := (createRefreshToken_eq_ok_iff s _
      { token := env.generateRefreshToken u.id, userId := u.id,
        expiresAt := addDays env (env.clock 0) 7 }).mpr ⟨hfresh, rfl⟩
    simp only [hl', hp', hf, hc, hcr]
    exact ⟨_, _, _, rfl⟩

/-- The answer and the store of a successful `login`. -/
theorem login_ok (env : Env) (s : Store) (l p : String) (u : User)
    (hl : l ≠ "") (hp : p ≠ "") (hf : findUserByLoginId s l = some u)
    (hc : env.comparePassword p u.password = true)
    (hfresh : ∀ r ∈ s.refreshTokens, r.token ≠ env.generateRefreshToken u.id) :
    login env s (some l) (some p) =
      (.json 200 (successBody (.session (env.generateAccessToken u.id)
          (env.generateRefreshToken u.id) (some (withoutPassword s u)))),
        { s with refreshTokens := s.refreshTokens ++
            [{ token := env.generateRefreshToken u.id, userId := u.id,
               expiresAt := addDays env (env.clock 0) 7 }] }) := by
  have hl' := (truthy_some_iff l).mpr hl
  have hp' := (truthy_some_iff p).mpr hp
  have hcr := (createRefreshToken_eq_ok_iff s _
    { token := env.generateRefreshToken u.id, userId := u.id,
      expiresAt := addDays env (env.clock 0) 7 }).mpr ⟨hfresh, rfl⟩
  unfold login
  simp only [hl', hp', hf, hc, hcr]
  rfl

/-- The spec's example: the registered admin logs in with the employee id. -/
theorem login_demo_session :
    (login demoEnv demoStoreNoSession (some "ACJADO0001") (some "securePass1")).1.IsSession
      200 :=
  ⟨"access:u1", "refresh:u1", some (withoutPassword demoStoreNoSession demoUser), by decide⟩

/-- Claim C1 as stated fails.  After a first registration made with the empty
password, the login id `jane@acme.com` is the email of a user and the empty
password verifies against that user's stored hash, yet `login` answers the 400
validation error, not a session. -/
theorem login_rejects_verifying_empty_password :
    (∃ u ∈ storeAfterEmptyPassword.users,
        (u.email = "jane@acme.com" ∨ u.employeeId = some "jane@acme.com") ∧
          demoEnv.comparePassword "" u.password = true) ∧
      (login demoEnv storeAfterEmptyPassword (some "jane@acme.com") (some "")).1
        = loginValidationError ∧
      ¬ (login demoEnv storeAfterEmptyPassword (some "jane@acme.com")
          (some "")).1.IsSession 200 := by
  refine ⟨?_, by decide, ?_⟩
  · refine ⟨storeAfterEmptyPassword.users.head (by decide), List.head_mem _, by decide⟩
  · rintro ⟨a, t, u, h⟩
    have h2 : (login demoEnv storeAfterEmptyPassword (some "jane@acme.com") (some "")).1
        = loginValidationError := by decide
    rw [h2] at h
    simp [loginValidationError, successBody, errorBody] at h

/-- Claim C2.  When `login` fails on a mismatch, the answer is one and the same
Unauthorized response (status 401, message `Invalid login ID or password`,
error tag `Unauthorized`) whether no user matches the login id (first call) or
a user matches and the password does not verify (second call); neither call
changes the store. -/
theorem login_mismatch_indistinguishable (env₁ env₂ : Env) (s₁ s₂ : Store)
    (l₁ p₁ l₂ p₂ : String) (u : User)
    (hl₁ : l₁ ≠ "") (hp₁ : p₁ ≠ "") (hl₂ : l₂ ≠ "") (hp₂ : p₂ ≠ "")
    (hnone : ∀ x ∈ s₁.users, x.email ≠ l₁ ∧ x.employeeId ≠ some l₁)
    (hfound : findUserByLoginId s₂ l₂ = some u)
    (hwrong : env₂.comparePassword p₂ u.password = false) :
    (login env₁ s₁ (some l₁) (some p₁)).1 = (login env₂ s₂ (some l₂) (some p₂)).1 ∧
      (login env₁ s₁ (some l₁) (some p₁)).1 =
        .json 401 (errorBody "Invalid login ID or password" "Unauthorized") ∧
      (login env₁ s₁ (some l₁) (some p₁)).2 = s₁ ∧
      (login env₂ s₂ (some l₂) (some p₂)).2 = s₂ := by
  have h1 : login env₁ s₁ (some l₁) (some p₁) = (loginUnauthorized, s₁) := by
    have hf := (findUserByLoginId_eq_none_iff s₁ l₁).mpr hnone
    simp [login, (truthy_some_iff l₁).mpr hl₁, (truthy_some_iff p₁).mpr hp₁, hf]
  have h2 : login env₂ s₂ (some l₂) (some p₂) = (loginUnauthorized, s₂) := by
    simp [login, (truthy_some_iff l₂).mpr hl₂, (truthy_some_iff p₂).mpr hp₂, hfound, hwrong]
  rw [h1, h2]
  exact ⟨rfl, rfl, rfl, rfl⟩

/-- Witness of C2: an unknown login id against the empty store, and the right
employee id with a wrong password against `demoStore`. -/
theorem login_mismatch_indistinguishable_witness :
    ("ghost" ≠ "" ∧ "pw" ≠ "" ∧ "ACJADO0001" ≠ "" ∧ "wrong" ≠ "") ∧
      (∀ x ∈ Store.empty.users, x.email ≠ "ghost" ∧ x.employeeId ≠ some "ghost") ∧
      findUserByLoginId demoStore "ACJADO0001" = some demoUser ∧
      demoEnv.comparePassword "wrong" demoUser.password = false ∧
      (login demoEnv Store.empty (some "ghost") (some "pw")).1 =
        (login demoEnv demoStore (some "ACJADO0001") (some "wrong")).1 ∧
      (login demoEnv Store.empty (some "ghost") (some "pw")).1 =
        .json 401 (errorBody "Invalid login ID or password" "Unauthorized") ∧
      (login demoEnv Store.empty (some "ghost") (some "pw")).2 = Store.empty ∧
      (login demoEnv demoStore (some "ACJADO0001") (some "wrong")).2 = demoStore :=
  ⟨by decide, by decide, by decide, by decide,
    login_mismatch_indistinguishable demoEnv demoEnv Store.empty demoStore
      "ghost" "pw" "ACJADO0001" "wrong" demoUser
      (by decide) (by decide) (by decide) (by decide) (by decide) (by decide) (by decide)⟩

/-! ## `refresh` and `logout` -/

theorem refresh_store (env : Env) (s : Store) (rt : Option String) :
    (refresh env s rt).2 = s := by
  unfold refresh
  repeat' split
  all_goals rfl

theorem refresh_of_valid (env : Env) (s : Store) (hu : UniqueRefreshTokens s) (t userId : String)
    (r : RefreshToken) (hv : env.verifyRefreshToken t = some userId)
    (hr : r ∈ s.refreshTokens) (ht : r.token = t) (he : ¬ r.expiresAt < env.clock 0) :
    (refresh env s (some t)).1 =
      .json 200 (successBody (.access (env.generateAccessToken userId))) := by
  have hf := findRefreshToken_of_unique s hu r hr
  rw [ht] at hf
  simp [refresh, hv, hf, he]

theorem refresh_of_invalid (env : Env) (s : Store) (rt : Option String)
    (h : ¬ RefreshValid env s rt) :
    (refresh env s rt).1 = refreshInvalid ∨ (refresh env s rt).1 = refreshExpired := by
  unfold refresh
  split
  · exact Or.inl rfl
  · rename_i t
    split
    · exact Or.inl rfl
    · rename_i userId hv
      split
      · exact Or.inr rfl
      · rename_i r hf
        split
        · exact Or.inr rfl
        · rename_i he
          exfalso
          apply h
          obtain ⟨hm, ht⟩ := findRefreshToken_some_token s t r hf
          exact ⟨t, rfl, ⟨userId, hv⟩, r, hm, ht, he⟩

theorem logout_bearer (s : Store) (t : String) :
    logout s (some ("Bearer " ++ t)) =
      match deleteRefreshToken s t with
      | .error e => (.next e, s)
      | .ok s1 => (logoutSuccess, s1) := by
  have hne : truthy (some ("Bearer " ++ t)) = true := by
    rw [truthy_some_iff]
    intro h
    have := congrArg String.data h
    simp [String.data_append] at this
  simp only [logout, hne, startsWithBearer_append, substring7_append, Bool.and_self, if_true]

/-- What `logout` does with a bearer token that matches no record, for every
store: Prisma's `delete` throws, the error is forwarded, the store is kept. -/
theorem logout_of_absent (s : Store) (t : String) (h : ∀ r ∈ s.refreshTokens, r.token ≠ t) :
    logout s (some ("Bearer " ++ t)) = (.next .recordNotFound, s) := by
  rw [logout_bearer, deleteRefreshToken_of_absent s t h]

/-- Claim C3.  In a store that respects the unique constraint on refresh-token
strings, `refresh` answers 200 with an access token if and only if the token
verifies and a record with that token string exists and is not past its stored
expiry; the access token is the one generated for the verified user id, and it
is the only thing returned; in every other case the answer is Unauthorized
(401); in all cases the store is unchanged (no rotation). -/
theorem refresh_succeeds_iff (env : Env) (s : Store) (refreshToken : Option String)
    (hu : UniqueRefreshTokens s) :
    ((∃ a, (refresh env s refreshToken).1 = .json 200 (successBody (.access a))) ↔
        RefreshValid env s refreshToken) ∧
      (∀ t userId, refreshToken = some t → env.verifyRefreshToken t = some userId →
        RefreshValid env s refreshToken →
        (refresh env s refreshToken).1 =
          .json 200 (successBody (.access (env.generateAccessToken userId)))) ∧
      (¬ RefreshValid env s refreshToken → (refresh env s refreshToken).1.IsUnauthorized) ∧
      (refresh env s refreshToken).2 = s := by
  refine ⟨⟨?_, ?_⟩, ?_, ?_, refresh_store env s refreshToken⟩
  · rintro ⟨a, ha⟩
    by_contra hv
    rcases refresh_of_invalid env s refreshToken hv with h | h <;>
      · rw [h] at ha
        simp [refreshInvalid, refreshExpired, successBody, errorBody] at ha
  · rintro ⟨t, rfl, ⟨userId, hv⟩, r, hr, ht, he⟩
    exact ⟨_, refresh_of_valid env s hu t userId r hv hr ht he⟩
  · rintro t userId rfl hv ⟨t', ht', -, r, hr, ht, he⟩
    cases ht'
    exact refresh_of_valid env s hu t userId r hv hr ht he
  · intro hv
    rcases refresh_of_invalid env s refreshToken hv with h | h
    · exact ⟨_, h⟩
    · exact ⟨_, h⟩

/-- Witness of C3: the live session token of `demoStore`. -/
theorem refresh_succeeds_iff_witness :
    UniqueRefreshTokens demoStore ∧
    (((∃ a, (refresh demoEnv demoStore (some "refresh:u1")).1 =
          .json 200 (successBody (.access a))) ↔
        RefreshValid demoEnv demoStore (some "refresh:u1")) ∧
      (∀ t userId, some "refresh:u1" = some t → demoEnv.verifyRefreshToken t = some userId →
        RefreshValid demoEnv demoStore (some "refresh:u1") →
        (refresh demoEnv demoStore (some "refresh:u1")).1 =
          .json 200 (successBody (.access (demoEnv.generateAccessToken userId)))) ∧
      (¬ RefreshValid demoEnv demoStore (some "refresh:u1") →
        (refresh demoEnv demoStore (some "refresh:u1")).1.IsUnauthorized) ∧
      (refresh demoEnv demoStore (some "refresh:u1")).2 = demoStore) :=
  ⟨by decide, refresh_succeeds_iff demoEnv demoStore (some "refresh:u1") (by decide)⟩

/-- Claim C4.  If `refresh` succeeds on the token `t`, then `logout` called
with the header `Bearer t` succeeds and leaves no record with that token, and
any later `refresh` of `t` on the resulting store answers Unauthorized (401). -/
theorem logout_revokes_refresh_token (env env' : Env) (s : Store) (t : String)
    (h : ∃ a, (refresh env s (some t)).1 = .json 200 (successBody (.access a))) :
    (logout s (some ("Bearer " ++ t))).1 = logoutSuccess ∧
      (∀ r ∈ (logout s (some ("Bearer " ++ t))).2.refreshTokens, r.token ≠ t) ∧
      (refresh env' (logout s (some ("Bearer " ++ t))).2 (some t)).1.IsUnauthorized ∧
      (refresh env' (logout s (some ("Bearer " ++ t))).2 (some t)).1.status? = some 401 := by
  have hmem : ∃ r ∈ s.refreshTokens, r.token = t := by
    by_contra hno
    have hv : ¬ RefreshValid env s (some t) := by
      rintro ⟨t', ht', -, r, hr, hrt, -⟩
      cases ht'
      exact hno ⟨r, hr, hrt⟩
    obtain ⟨a, ha⟩ := h
    rcases refresh_of_invalid env s (some t) hv with h' | h' <;>
      · rw [h'] at ha
        simp [refreshInvalid, refreshExpired, successBody, errorBody] at ha
  rw [logout_bearer, deleteRefreshToken_of_mem s t hmem]
  have habs : ∀ r ∈ s.refreshTokens.filter (fun x => ¬ x.token = t), r.token ≠ t := by
    intro r hr
    simpa using (List.mem_filter.mp hr).2
  have hv : ¬ RefreshValid env'
      { s with refreshTokens := s.refreshTokens.filter (fun x => ¬ x.token = t) } (some t) := by
    rintro ⟨t', ht', -, r, hr, hrt, -⟩
    cases ht'
    exact habs r hr hrt
  refine ⟨rfl, habs, ?_, ?_⟩
  · rcases refresh_of_invalid env' _ (some t) hv with h' | h'
    · exact ⟨_, h'⟩
    · exact ⟨_, h'⟩
  · rcases refresh_of_invalid env' _ (some t) hv with h' | h' <;>
      · rw [h']; rfl

/-- Witness of C4: the live session token of `demoStore`. -/
theorem logout_revokes_refresh_token_witness :
    (∃ a, (refresh demoEnv demoStore (some "refresh:u1")).1 =
        .json 200 (successBody (.access a))) ∧
      (logout demoStore (some ("Bearer " ++ "refresh:u1"))).1 = logoutSuccess ∧
      (∀ r ∈ (logout demoStore (some ("Bearer " ++ "refresh:u1"))).2.refreshTokens,
        r.token ≠ "refresh:u1") ∧
      (refresh demoEnv (logout demoStore (some ("Bearer " ++ "refresh:u1"))).2
        (some "refresh:u1")).1.IsUnauthorized ∧
      (refresh demoEnv (logout demoStore (some ("Bearer " ++ "refresh:u1"))).2
        (some "refresh:u1")).1.status? = some 401 :=
  ⟨⟨"access:u1", by decide⟩,
    logout_revokes_refresh_token demoEnv demoEnv demoStore "refresh:u1"
      ⟨"access:u1", by decide⟩⟩

/-- Claim C5, the code at the failing input.  The bearer token `nope` matches
no record of `demoStore`; `logout` does not answer 200: the `P2025` error of
Prisma's `delete` is forwarded to the error middleware.  The store is kept. -/
theorem logout_absent_token_forwards_error :
    (∀ r ∈ demoStore.refreshTokens, r.token ≠ "nope") ∧
      logout demoStore (some "Bearer nope") = (.next .recordNotFound, demoStore) ∧
      (logout demoStore (some "Bearer nope")).1 ≠ logoutSuccess := by
  decide

/-! ## `registerUser` -/

theorem take_one_length_pos {α : Type} (l : List α) : (l.take 1).length > 0 ↔ l ≠ [] := by
  cases l <;> simp

theorem registerUser_of_company (env : Env) (s : Store) (body : RegisterBody)
    (h : s.companies ≠ []) : registerUser env s body = (registrationDisabled, s) := by
  unfold registerUser
  rw [if_pos ((take_one_length_pos s.companies).mpr h)]

theorem findOrCreateCompany_of_no_company (env : Env) (s : Store) (companyName : String)
    (companyLogo : Option String) (h : s.companies = []) :
    findOrCreateCompany env s companyName companyLogo =
      .ok ({ id := env.newCompanyId, name := companyName,
             code := env.generateCompanyCode s companyName, logo := orNull companyLogo },
           { s with companies :=
               [{ id := env.newCompanyId, name := companyName,
                  code := env.generateCompanyCode s companyName,
                  logo := orNull companyLogo }] }) := by
  simp [findOrCreateCompany, findCompanyByName, createCompany, h]

theorem createAdmin_reply (env : Env) (s : Store) (company : Company)
    (firstName lastName email : String) (phone password : Option String) :
    (∃ e, (createAdmin env s company firstName lastName email phone password).1 = .next e) ∨
      (createAdmin env s company firstName lastName email phone password).1.IsSession 201 := by
  unfold createAdmin
  dsimp only
  split
  · exact Or.inl ⟨_, rfl⟩
  · split
    · exact Or.inl ⟨_, rfl⟩
    · split
      · exact Or.inl ⟨_, rfl⟩
      · split
        · exact Or.inl ⟨_, rfl⟩
        · exact Or.inr ⟨_, _, _, rfl⟩

theorem createAdmin_not_400 (env : Env) (s : Store) (company : Company)
    (firstName lastName email : String) (phone password : Option String) :
    (createAdmin env s company firstName lastName email phone password).1.status? ≠ some 400 := by
  rcases createAdmin_reply env s company firstName lastName email phone password with
    ⟨e, h⟩ | ⟨a, t, u, h⟩ <;>
    · rw [h]; simp [Reply.status?]

theorem registerUser_companyName_absent (env : Env) (s : Store) (body : RegisterBody)
    (hc : s.companies = []) (hcn : body.companyName = none) :
    registerUser env s body = (companyNameInvalid, s) := by
  simp [registerUser, hc, hcn]

theorem registerUser_companyName_short (env : Env) (s : Store) (body : RegisterBody)
    (companyName : String) (hc : s.companies = []) (hcn : body.companyName = some companyName)
    (hshort : jsLength companyName < 2) :
    registerUser env s body = (companyNameInvalid, s) := by
  simp [registerUser, hc, hcn, hshort]

theorem registerUser_email_absent (env : Env) (s : Store) (body : RegisterBody)
    (companyName : String) (hc : s.companies = []) (hcn : body.companyName = some companyName)
    (hlen : 2 ≤ jsLength companyName) (hem : body.email = none) :
    registerUser env s body = (.next .missingUniqueArgument, s) := by
  have ht := truthy_of_jsLength_pos companyName (by omega)
  simp [registerUser, hc, hcn, hem, ht, Nat.not_lt.mpr hlen]

theorem registerUser_email_taken (env : Env) (s : Store) (body : RegisterBody)
    (companyName email : String) (u : User) (hc : s.companies = [])
    (hcn : body.companyName = some companyName) (hlen : 2 ≤ jsLength companyName)
    (hem : body.email = some email) (hfe : findUserByEmail s email = some u) :
    registerUser env s body = (emailTaken, s) := by
  have ht := truthy_of_jsLength_pos companyName (by omega)
  simp [registerUser, hc, hcn, hem, hfe, ht, Nat.not_lt.mpr hlen]

theorem registerUser_name_absent (env : Env) (s : Store) (body : RegisterBody)
    (companyName email : String) (hc : s.companies = [])
    (hcn : body.companyName = some companyName) (hlen : 2 ≤ jsLength companyName)
    (hem : body.email = some email) (hfe : findUserByEmail s email = none)
    (hn : body.name = none) :
    registerUser env s body =
      (.next .typeError,
        { s with companies :=
            [{ id := env.newCompanyId, name := companyName,
               code := env.generateCompanyCode s companyName,
               logo := orNull body.companyLogo }] }) := by
  have ht := truthy_of_jsLength_pos companyName (by omega)
  simp [registerUser, hc, hcn, hem, hfe, hn, ht, Nat.not_lt.mpr hlen,
    findOrCreateCompany_of_no_company]

theorem registerUser_name (env : Env) (s : Store) (body : RegisterBody)
    (companyName email name : String) (hc : s.companies = [])
    (hcn : body.companyName = some companyName) (hlen : 2 ≤ jsLength companyName)
    (hem : body.email = some email) (hfe : findUserByEmail s email = none)
    (hn : body.name = some name) :
    registerUser env s body =
      if jsLength (firstNameOf name) < 2 ∨ jsLength (lastNameOf name) < 2 then
        (nameTooShort,
          { s with companies :=
            [{ id := env.newCompanyId, name := companyName,
               code := env.generateCompanyCode s companyName,
               logo := orNull body.companyLogo }] })
      else
        createAdmin env
          { s with companies :=
            [{ id := env.newCompanyId, name := companyName,
               code := env.generateCompanyCode s companyName,
               logo := orNull body.companyLogo }] }
          { id := env.newCompanyId, name := companyName,
            code := env.generateCompanyCode s companyName, logo := orNull body.companyLogo }
          (firstNameOf name) (lastNameOf name) email body.phone body.password := by
  have ht := truthy_of_jsLength_pos companyName (by omega)
  simp [registerUser, hc, hcn, hem, hfe, hn, ht, Nat.not_lt.mpr hlen,
    findOrCreateCompany_of_no_company]

/-- Every 400 answer on the split name has created the company. -/
theorem registerUser_nameTooShort_store (env : Env) (s : Store) (body : RegisterBody)
    (h : (registerUser env s body).1 = nameTooShort) :
    s.companies = [] ∧ ∃ c, (registerUser env s body).2 = { s with companies := [c] } := by
  by_cases hc : s.companies = []
  swap
  · rw [registerUser_of_company env s body hc] at h
    simp [registrationDisabled, nameTooShort, errorBody] at h
  refine ⟨hc, ?_⟩
  cases hcn : body.companyName with
  | none =>
    rw [registerUser_companyName_absent env s body hc hcn] at h
    simp [companyNameInvalid, nameTooShort, errorBody] at h
  | some companyName =>
    by_cases hlen : 2 ≤ jsLength companyName
    swap
    · rw [registerUser_companyName_short env s body companyName hc hcn (by omega)] at h
      simp [companyNameInvalid, nameTooShort, errorBody] at h
    cases hem : body.email with
    | none =>
      rw [registerUser_email_absent env s body companyName hc hcn hlen hem] at h
      simp [nameTooShort] at h
    | some email =>
      cases hfe : findUserByEmail s email with
      | some u =>
        rw [registerUser_email_taken env s body companyName email u hc hcn hlen hem hfe] at h
        simp [emailTaken, nameTooShort, errorBody] at h
      | none =>
        cases hn : body.name with
        | none =>
          rw [registerUser_name_absent env s body companyName email hc hcn hlen hem hfe hn] at h
          simp [nameTooShort] at h
        | some name =>
          rw [registerUser_name env s body companyName email name hc hcn hlen hem hfe hn] at h ⊢
          split
          · exact ⟨_, rfl⟩
          · rename_i hshort
            rw [if_neg hshort] at h
            exfalso
            apply createAdmin_not_400 env _ _ _ _ email body.phone body.password
            rw [h]; rfl

/-- Claim C6.  In every store with at least one company, and for every
request body, `registerUser` answers 403 Forbidden and leaves the store as it
was; in particular it never answers 201 there, so a 201 can only come from a
store with no company. -/
theorem registerUser_gated (env : Env) (s : Store) (body : RegisterBody)
    (h : s.companies ≠ []) :
    (registerUser env s body).1 =
        .json 403 (errorBody
          "Registration is disabled. Please contact your HR or Admin to create an account."
          "Forbidden") ∧
      (registerUser env s body).2 = s ∧
      ∀ b, (registerUser env s body).1 ≠ .json 201 b := by
  rw [registerUser_of_company env s body h]
  refine ⟨rfl, rfl, ?_⟩
  intro b hb
  simp [registrationDisabled] at hb

/-- Witness of C6: the spec's example request against `demoStore`, which has
a company. -/
theorem registerUser_gated_witness :
    demoStore.companies ≠ [] ∧
      (registerUser demoEnv demoStore demoBody).1 =
        .json 403 (errorBody
          "Registration is disabled. Please contact your HR or Admin to create an account."
          "Forbidden") ∧
      (registerUser demoEnv demoStore demoBody).2 = demoStore ∧
      ∀ b, (registerUser demoEnv demoStore demoBody).1 ≠ .json 201 b :=
  ⟨by decide, registerUser_gated demoEnv demoStore demoBody (by decide)⟩

/-- The second half of C6 in direct form: a 201 answer implies that the store
had no company. -/
theorem registerUser_created_only_without_company (env : Env) (s : Store) (body : RegisterBody)
    (b : Body) (h : (registerUser env s body).1 = .json 201 b) : s.companies = [] := by
  by_contra hc
  rw [registerUser_of_company env s body hc] at h
  simp [registrationDisabled] at h

/-- Registration does succeed from the empty store (the spec's example). -/
theorem registerUser_demo_created :
    (registerUser demoEnv Store.empty demoBody).1.IsSession 201 :=
  ⟨"access:u1", "refresh:u1",
    (findUserById (registerUser demoEnv Store.empty demoBody).2 "u1").map
      (withoutPassword (registerUser demoEnv Store.empty demoBody).2), by decide⟩

/-- Claim C7, the code at the failing input.  On the empty store, a request
with a valid company name, a fresh email and the one-letter name `A` is
answered 400 (validation error on the name), yet the store is no longer the one
before the call: the company has been created.  The next registration, with
the spec's valid example, is then refused with 403. -/
theorem registerUser_short_name_leaves_company :
    (registerUser demoEnv Store.empty { demoBody with name := some "A" }).1 = nameTooShort ∧
      (registerUser demoEnv Store.empty { demoBody with name := some "A" }).2 =
        { Store.empty with
          companies := [{ id := "c1", name := "Acme Corp", code := "Ac", logo := none }] } ∧
      (registerUser demoEnv Store.empty { demoBody with name := some "A" }).2 ≠ Store.empty ∧
      (registerUser demoEnv
        (registerUser demoEnv Store.empty { demoBody with name := some "A" }).2 demoBody).1
        = registrationDisabled := by
  decide

theorem login_store_or_ok (env : Env) (s : Store) (loginId password : Option String) :
    (login env s loginId password).2 = s ∨
      (login env s loginId password).1.status? = some 200 := by
  unfold login
  split
  · exact Or.inl rfl
  · split
    · split
      · exact Or.inl rfl
      · split
        · exact Or.inl rfl
        · dsimp only
          split
          · exact Or.inl rfl
          · exact Or.inr rfl
    · exact Or.inl rfl

theorem login_validation_keeps_store (env : Env) (s : Store) (loginId password : Option String)
    (h : (login env s loginId password).1.status? = some 400) :
    (login env s loginId password).2 = s := by
  rcases login_store_or_ok env s loginId password with h1 | h1
  · exact h1
  · rw [h1] at h; cases h

theorem updateUserPassword_store_or_ok (env : Env) (s : Store) (userId : String)
    (password : Option String) (admin : UserProfile) :
    (updateUserPassword env s userId password admin).2 = s ∨
      (updateUserPassword env s userId password admin).1.status? = some 200 := by
  unfold updateUserPassword
  split
  · exact Or.inl rfl
  · split
    · exact Or.inl rfl
    · split
      · exact Or.inl rfl
      · split
        · exact Or.inl rfl
        · split
          · exact Or.inl rfl
          · exact Or.inr rfl

theorem updateUserPassword_validation_keeps_store (env : Env) (s : Store) (userId : String)
    (password : Option String) (admin : UserProfile)
    (h : (updateUserPassword env s userId password admin).1.status? = some 400) :
    (updateUserPassword env s userId password admin).2 = s := by
  rcases updateUserPassword_store_or_ok env s userId password admin with h1 | h1
  · exact h1
  · rw [h1] at h; cases h

theorem findUserByEmail_isSome_of_mem (s : Store) (email : String)
    (h : ∃ u ∈ s.users, u.email = email) : ∃ u, findUserByEmail s email = some u := by
  obtain ⟨u, hu, he⟩ := h
  have : (s.users.find? (fun u => u.email = email)).isSome = true := by
    rw [List.find?_isSome]
    exact ⟨u, hu, by simpa using he⟩
  exact Option.isSome_iff_exists.mp this

/-- Claim C8 as stated fails.  With no company and `demoUser` registered, the
spec's example request reuses that user's email; the answer is status 400 with
error tag `Validation Error`, not an answer of a Conflict class (no status 409,
no `Conflict` tag). -/
theorem registerUser_duplicate_email_not_conflict :
    storeWithUserOnly.companies = [] ∧
      (∃ u ∈ storeWithUserOnly.users, some u.email = demoBody.email) ∧
      (registerUser demoEnv storeWithUserOnly demoBody).1 =
        .json 400 (errorBody "User with this email already exists" "Validation Error") ∧
      (registerUser demoEnv storeWithUserOnly demoBody).1.status? ≠ some 409 ∧
      (registerUser demoEnv storeWithUserOnly demoBody).1.errorTag? ≠ some "Conflict" := by
  refine ⟨by decide, ⟨demoUser, by decide, by decide⟩, by decide, by decide, by decide⟩

/-- Claim C8, as amended.  In every store with no company, a registration
request whose email is the email of an existing user fails with status 400 and
error tag `Validation Error`: with the message `User with this email already
exists` when the company name has at least 2 characters, and on the company
name otherwise.  The store is unchanged, so no second user with that email is
created. -/
theorem registerUser_duplicate_email (env : Env) (s : Store) (body : RegisterBody)
    (email : String) (hc : s.companies = []) (hem : body.email = some email)
    (hex : ∃ u ∈ s.users, u.email = email) :
    (registerUser env s body).1.status? = some 400 ∧
      (registerUser env s body).1.errorTag? = some "Validation Error" ∧
      (∀ n, body.companyName = some n → 2 ≤ jsLength n →
        (registerUser env s body).1 =
          .json 400 (errorBody "User with this email already exists" "Validation Error")) ∧
      ((∀ n, body.companyName = some n → jsLength n < 2) →
        (registerUser env s body).1 =
          .json 400 (errorBody "Company name is required and must be at least 2 characters"
            "Validation Error")) ∧
      (registerUser env s body).2 = s := by
  obtain ⟨u, hfe⟩ := findUserByEmail_isSome_of_mem s email hex
  cases hcn : body.companyName with
  | none =>
    rw [registerUser_companyName_absent env s body hc hcn]
    refine ⟨rfl, rfl, ?_, fun _ => rfl, rfl⟩
    intro n hn
    cases hn
  | some companyName =>
    by_cases hlen : 2 ≤ jsLength companyName
    · rw [registerUser_email_taken env s body companyName email u hc hcn hlen hem hfe]
      refine ⟨rfl, rfl, fun _ _ _ => rfl, ?_, rfl⟩
      intro hshort
      have := hshort companyName rfl
      omega
    · rw [registerUser_companyName_short env s body companyName hc hcn (by omega)]
      refine ⟨rfl, rfl, ?_, fun _ => rfl, rfl⟩
      intro n hn hn2
      cases hn
      exact absurd hn2 hlen

/-- Witness of C8: the spec's example request against `storeWithUserOnly`. -/
theorem registerUser_duplicate_email_witness :
    storeWithUserOnly.companies = [] ∧ demoBody.email = some "jane@acme.com" ∧
      (∃ u ∈ storeWithUserOnly.users, u.email = "jane@acme.com") ∧
      (registerUser demoEnv storeWithUserOnly demoBody).1.status? = some 400 ∧
      (registerUser demoEnv storeWithUserOnly demoBody).1.errorTag? = some "Validation Error" ∧
      (∀ n, demoBody.companyName = some n → 2 ≤ jsLength n →
        (registerUser demoEnv storeWithUserOnly demoBody).1 =
          .json 400 (errorBody "User with this email already exists" "Validation Error")) ∧
      ((∀ n, demoBody.companyName = some n → jsLength n < 2) →
        (registerUser demoEnv storeWithUserOnly demoBody).1 =
          .json 400 (errorBody "Company name is required and must be at least 2 characters"
            "Validation Error")) ∧
      (registerUser demoEnv storeWithUserOnly demoBody).2 = storeWithUserOnly :=
  ⟨by decide, by decide, ⟨demoUser, by decide, by decide⟩,
    registerUser_duplicate_email demoEnv storeWithUserOnly demoBody "jane@acme.com"
      (by decide) (by decide) ⟨demoUser, by decide, by decide⟩⟩

/-! ## `sendCredentials` and `updateUserPassword` -/

theorem findUserById_any (s : Store) (userId : String) (user : User)
    (h : findUserById s userId = some user) : s.users.any (fun u => u.id = userId) = true := by
  unfold findUserById at h
  rw [List.any_eq_true]
  exact ⟨user, List.mem_of_find?_eq_some h, by simpa using List.find?_some h⟩

theorem createPasswordResetToken_of_fresh (s : Store) (r : PasswordResetToken)
    (h : ∀ x ∈ s.passwordResetTokens, x.token ≠ r.token) :
    createPasswordResetToken s r =
      .ok { s with passwordResetTokens := s.passwordResetTokens ++ [r] } := by
  unfold createPasswordResetToken
  rw [if_neg]
  simpa using h

theorem sendCredentials_authorized (env : Env) (s : Store) (userId : String)
    (admin : UserProfile) (user : User) (hfind : findUserById s userId = some user)
    (hauth : crossCompany admin user = false)
    (hfresh : ∀ r ∈ s.passwordResetTokens, r.token ≠ env.randomHex) :
    sendCredentials env s userId admin =
      (sendCredentialsSuccess,
        { s with passwordResetTokens := s.passwordResetTokens ++
            [{ token := env.randomHex, userId := user.id, email := user.email,
               expiresAt := addHours env (env.clock 0) 1 }] }) := by
  have hcr := createPasswordResetToken_of_fresh s
    { token := env.randomHex, userId := user.id, email := user.email,
      expiresAt := addHours env (env.clock 0) 1 } hfresh
  unfold sendCredentials
  simp only [hfind, hauth, generatePasswordResetToken, hcr, Bool.false_eq_true, if_false]
  split <;> rfl

theorem crossCompany_of_scoped (admin : UserProfile) (user : User)
    (hset : truthy admin.companyId = true) (hdiff : user.companyId ≠ admin.companyId) :
    crossCompany admin user = true := by
  simp [crossCompany, hset, hdiff]

theorem crossCompany_of_authorized (admin : UserProfile) (user : User)
    (h : truthy admin.companyId = false ∨ user.companyId = admin.companyId) :
    crossCompany admin user = false := by
  rcases h with h | h <;> simp [crossCompany, h]

theorem findUserById_map (s : Store) (userId : String) (f : User → User)
    (hf : ∀ u, (f u).id = u.id) :
    findUserById { s with users := s.users.map f } userId = (findUserById s userId).map f := by
  unfold findUserById
  simp only [List.find?_map]
  congr 2
  funext u
  simp [Function.comp, hf]

theorem updateUserPasswordRow_of_found (s : Store) (userId hashed : String) (now : Nat)
    (user : User) (hfind : findUserById s userId = some user) :
    updateUserPasswordRow s userId hashed now =
      .ok { s with users := s.users.map (fun u =>
        if u.id = userId then { u with password := hashed, updatedAt := now } else u) } := by
  unfold updateUserPasswordRow
  rw [if_pos (findUserById_any s userId user hfind)]

theorem findUserById_id (s : Store) (userId : String) (user : User)
    (h : findUserById s userId = some user) : user.id = userId := by
  unfold findUserById at h
  simpa using List.find?_some h

/-- The store after a successful `updateUserPassword`, and the target row in it. -/
theorem updateUserPassword_authorized (env : Env) (s : Store) (userId pw : String)
    (admin : UserProfile) (user : User) (hfind : findUserById s userId = some user)
    (hpw : 8 ≤ jsLength pw) (hauth : crossCompany admin user = false) :
    updateUserPassword env s userId (some pw) admin =
      (updatePasswordSuccess,
        { s with users := s.users.map (fun u =>
            if u.id = userId then
              { u with password := env.hashPassword pw, updatedAt := env.dbNow }
            else u) }) := by
  have ht := truthy_of_jsLength_pos pw (by omega)
  have hlen : ¬ jsLength pw < 8 := by omega
  have hrow := updateUserPasswordRow_of_found s userId (env.hashPassword pw) env.dbNow user hfind
  simp [updateUserPassword, hfind, hauth, ht, hlen, hrow]

theorem findUserById_after_update (s : Store) (userId hashed : String) (now : Nat)
    (user : User) (hfind : findUserById s userId = some user) :
    findUserById
        { s with users := s.users.map (fun u =>
            if u.id = userId then { u with password := hashed, updatedAt := now } else u) }
        userId
      = some { user with password := hashed, updatedAt := now } := by
  rw [findUserById_map s userId _ (by intro u; split <;> rfl), hfind]
  simp [findUserById_id s userId user hfind]

/-- Claim C9.  For an existing target user and a password of at least 8
characters (counted as JavaScript counts them): for an admin whose companyId
is set and differs from the target's, `sendCredentials` and
`updateUserPassword` both answer 403 Forbidden and leave the store unchanged;
for an admin with no companyId both succeed: `sendCredentials` answers 200 and
the store gains the reset token of the target, `updateUserPassword` answers
200 and the store is the one before with the target's digest overwritten by
the hash of the new password (and its `updatedAt` stamped), so that the lookup
of the target then returns the row with the new digest.  The reset token drawn
from the random source is taken not to be stored already. -/
theorem admin_company_scope (env : Env) (s : Store) (userId pw : String) (user : User)
    (scopedAdmin rootAdmin : UserProfile)
    (hfind : findUserById s userId = some user) (hpw : 8 ≤ jsLength pw)
    (hset : truthy scopedAdmin.companyId = true) (hdiff : user.companyId ≠ scopedAdmin.companyId)
    (hnone : rootAdmin.companyId = none)
    (hfresh : ∀ r ∈ s.passwordResetTokens, r.token ≠ env.randomHex) :
    sendCredentials env s userId scopedAdmin =
        (.json 403 (errorBody "You can only send credentials to users in your company"
          "Forbidden"), s) ∧
      updateUserPassword env s userId (some pw) scopedAdmin =
        (.json 403 (errorBody "You can only update passwords for users in your company"
          "Forbidden"), s) ∧
      sendCredentials env s userId rootAdmin =
        (.json 200 (successBody (.message "Login credentials sent successfully via email")),
          { s with passwordResetTokens := s.passwordResetTokens ++
              [{ token := env.randomHex, userId := user.id, email := user.email,
                 expiresAt := addHours env (env.clock 0) 1 }] }) ∧
      updateUserPassword env s userId (some pw) rootAdmin =
        (.json 200 (successBody (.message "Password updated successfully")),
          { s with users := s.users.map (fun u =>
              if u.id = userId then
                { u with password := env.hashPassword pw, updatedAt := env.dbNow }
              else u) }) ∧
      findUserById (updateUserPassword env s userId (some pw) rootAdmin).2 userId =
        some { user with password := env.hashPassword pw, updatedAt := env.dbNow } := by
  have hx := crossCompany_of_scoped scopedAdmin user hset hdiff
  have hy : crossCompany rootAdmin user = false :=
    crossCompany_of_authorized rootAdmin user (Or.inl (by rw [hnone]; rfl))
  have ht := truthy_of_jsLength_pos pw (by omega)
  have hlen : ¬ jsLength pw < 8 := by omega
  have hup := updateUserPassword_authorized env s userId pw rootAdmin user hfind hpw hy
  refine ⟨?_, ?_, ?_, ?_, ?_⟩
  · simp [sendCredentials, hfind, hx, sendCredentialsForbidden]
  · simp [updateUserPassword, hfind, hx, ht, hlen, updatePasswordForbidden]
  · exact sendCredentials_authorized env s userId rootAdmin user hfind hy hfresh
  · exact hup
  · rw [hup]
    exact findUserById_after_update s userId (env.hashPassword pw) env.dbNow user hfind

/-- Witness of C9: `demoUser` of company `c1`, an admin of company `c2` and an
admin with no company. -/
theorem admin_company_scope_witness :
    findUserById demoStore "u1" = some demoUser ∧ 8 ≤ jsLength "12345678" ∧
      truthy (demoAdmin (some "c2")).companyId = true ∧
      demoUser.companyId ≠ (demoAdmin (some "c2")).companyId ∧
      (demoAdmin none).companyId = none ∧
      (∀ r ∈ demoStore.passwordResetTokens, r.token ≠ demoEnv.randomHex) ∧
      sendCredentials demoEnv demoStore "u1" (demoAdmin (some "c2")) =
        (.json 403 (errorBody "You can only send credentials to users in your company"
          "Forbidden"), demoStore) ∧
      updateUserPassword demoEnv demoStore "u1" (some "12345678") (demoAdmin (some "c2")) =
        (.json 403 (errorBody "You can only update passwords for users in your company"
          "Forbidden"), demoStore) ∧
      sendCredentials demoEnv demoStore "u1" (demoAdmin none) =
        (.json 200 (successBody (.message "Login credentials sent successfully via email")),
          { demoStore with passwordResetTokens := demoStore.passwordResetTokens ++
              [{ token := demoEnv.randomHex, userId := demoUser.id, email := demoUser.email,
                 expiresAt := addHours demoEnv (demoEnv.clock 0) 1 }] }) ∧
      updateUserPassword demoEnv demoStore "u1" (some "12345678") (demoAdmin none) =
        (.json 200 (successBody (.message "Password updated successfully")),
          { demoStore with users := demoStore.users.map (fun u =>
              if u.id = "u1" then
                { u with password := demoEnv.hashPassword "12345678",
                         updatedAt := demoEnv.dbNow }
              else u) }) ∧
      findUserById (updateUserPassword demoEnv demoStore "u1" (some "12345678")
          (demoAdmin none)).2 "u1" =
        some { demoUser with password := demoEnv.hashPassword "12345678",
                             updatedAt := demoEnv.dbNow } :=
  ⟨by decide, by decide, by decide, by decide, by decide, by decide,
    admin_company_scope demoEnv demoStore "u1" "12345678" demoUser (demoAdmin (some "c2"))
      (demoAdmin none) (by decide) (by decide) (by decide) (by decide) (by decide)
      (by decide)⟩

/-- The stored digest after the update of the witness is the hash of the new
password, and the new password verifies against it. -/
theorem updateUserPassword_demo :
    (updateUserPassword demoEnv demoStore "u1" (some "12345678") (demoAdmin none)).2.users.map
        (fun u => u.password) = ["hash:12345678"] ∧
      (login demoEnv
        (updateUserPassword demoEnv demoStore "u1" (some "12345678") (demoAdmin none)).2
        (some "jane@acme.com") (some "securePass1")).1 = loginUnauthorized := by
  decide

/-- On the local wall clock `n` hours later is `n` hours later, when the zone
reads the resulting wall-clock value with the offset in effect at the start. -/
theorem addHours_of_steady_offset (env : Env) (d n : Nat)
    (h : env.localTZA (localTime env d + ((n * msPerHour : Nat) : Int)) false
      = env.localTZA d true) :
    addHours env d n = d + n * 3600000 := by
  unfold addHours utcOfLocal
  rw [h]
  unfold localTime msPerHour
  have : ((d : Int) + env.localTZA d true + ((n * 3600000 : Nat) : Int) - env.localTZA d true)
      = ((d + n * 3600000 : Nat) : Int) := by
    push_cast; ring
  rw [this, Int.toNat_ofNat]

/-- Claim C10, the code at the failing input.  On a server on New York time,
`sendCredentials` called by an admin with no company at 2024-11-03 05:30 UTC
(01:30 on the wall clock, before daylight saving ends at 02:00) answers the 200
success and stores one reset token for the target, whose expiry, set with
`setHours(getHours() + 1)` to 02:30 on the wall clock, is two hours after
issuance, not one. -/
theorem sendCredentials_expiry_two_hours_at_dst_end :
    findUserById demoStore "u1" = some demoUser ∧ (demoAdmin none).companyId = none ∧
      sendCredentials newYorkEnv demoStore "u1" (demoAdmin none) =
        (.json 200 (successBody (.message "Login credentials sent successfully via email")),
          { demoStore with passwordResetTokens :=
              [{ token := "00ff", userId := "u1", email := "jane@acme.com",
                 expiresAt := newYorkEnv.clock 0 + 7200000 }] }) ∧
      newYorkEnv.clock 0 + 7200000 ≠ newYorkEnv.clock 0 + 3600000 := by
  decide

/-- What holds of every authorized `sendCredentials` call, whatever the mail
transport does (`mail` says on which mails it returns and on which it throws):
the answer is the 200 success and the store gains exactly one reset token with
the target's user id and email, expiring one hour later on the server's wall
clock. -/
theorem sendCredentials_mail_independent (env : Env) (s : Store) (userId : String)
    (admin : UserProfile) (user : User) (mail : Mail → Bool)
    (hfind : findUserById s userId = some user)
    (hauth : truthy admin.companyId = false ∨ user.companyId = admin.companyId)
    (hfresh : ∀ r ∈ s.passwordResetTokens, r.token ≠ env.randomHex) :
    sendCredentials { env with sendMail := mail } s userId admin =
      (.json 200 (successBody (.message "Login credentials sent successfully via email")),
        { s with passwordResetTokens := s.passwordResetTokens ++
            [{ token := env.randomHex, userId := user.id, email := user.email,
               expiresAt := addHours env (env.clock 0) 1 }] }) :=
  sendCredentials_authorized { env with sendMail := mail } s userId admin user hfind
    (crossCompany_of_authorized admin user hauth) hfresh

/-- The expiry is one hour after issuance when the zone's offset does not
change over that hour. -/
theorem sendCredentials_one_hour_of_steady_offset (env : Env) (s : Store) (userId : String)
    (admin : UserProfile) (user : User) (mail : Mail → Bool)
    (hfind : findUserById s userId = some user)
    (hauth : truthy admin.companyId = false ∨ user.companyId = admin.companyId)
    (hfresh : ∀ r ∈ s.passwordResetTokens, r.token ≠ env.randomHex)
    (hzone : env.localTZA (localTime env (env.clock 0) + ((1 * msPerHour : Nat) : Int)) false
      = env.localTZA (env.clock 0) true) :
    sendCredentials { env with sendMail := mail } s userId admin =
      (.json 200 (successBody (.message "Login credentials sent successfully via email")),
        { s with passwordResetTokens := s.passwordResetTokens ++
            [{ token := env.randomHex, userId := user.id, email := user.email,
               expiresAt := env.clock 0 + 3600000 }] }) := by
  rw [sendCredentials_mail_independent env s userId admin user mail hfind hauth hfresh,
    addHours_of_steady_offset env (env.clock 0) 1 hzone]

/-! ## The unique constraint on refresh tokens is an invariant

Every handler takes a store that respects the unique constraint on
`RefreshToken.token` to one that respects it, and the empty store respects it:
the hypothesis of the `refresh` theorem holds in every store the handlers can
produce. -/

theorem createRefreshToken_preserves_unique (s s1 : Store) (r : RefreshToken)
    (hu : UniqueRefreshTokens s) (h : createRefreshToken s r = .ok s1) :
    UniqueRefreshTokens s1 := by
  obtain ⟨hfresh, rfl⟩ := (createRefreshToken_eq_ok_iff s s1 r).mp h
  unfold UniqueRefreshTokens at hu ⊢
  simp only [List.map_append, List.map_cons, List.map_nil]
  rw [List.nodup_append]
  refine ⟨hu, List.nodup_singleton _, ?_⟩
  intro a ha hb
  rw [List.mem_singleton] at hb
  obtain ⟨x, hx, rfl⟩ := List.mem_map.mp ha
  exact hfresh x hx hb

theorem login_preserves_unique (env : Env) (s : Store) (loginId password : Option String)
    (hu : UniqueRefreshTokens s) : UniqueRefreshTokens (login env s loginId password).2 := by
  unfold login
  split
  · exact hu
  · split
    · split
      · exact hu
      · split
        · exact hu
        · dsimp only
          split
          · exact hu
          · rename_i s1 hcr
            exact createRefreshToken_preserves_unique s s1 _ hu hcr
    · exact hu

theorem logout_preserves_unique (s : Store) (authHeader : Option String)
    (hu : UniqueRefreshTokens s) : UniqueRefreshTokens (logout s authHeader).2 := by
  unfold logout
  split
  · split
    · split
      · exact hu
      · rename_i s1 hd
        unfold deleteRefreshToken at hd
        split at hd
        · cases hd
          exact List.Nodup.sublist (List.Sublist.map _ (List.filter_sublist _)) hu
        · cases hd
    · exact hu
  · exact hu

theorem createUser_refreshTokens (s s1 : Store) (u : User) (h : createUser s u = .ok s1) :
    s1.refreshTokens = s.refreshTokens := by
  unfold createUser at h
  split at h
  · cases h
  · split at h
    · cases h
    · cases h; rfl

theorem createEmployee_refreshTokens (s s1 : Store) (e : Employee)
    (h : createEmployee s e = .ok s1) : s1.refreshTokens = s.refreshTokens := by
  unfold createEmployee at h
  split at h
  · cases h
  · cases h; rfl

theorem createAdmin_preserves_unique (env : Env) (s : Store) (company : Company)
    (firstName lastName email : String) (phone password : Option String)
    (hu : UniqueRefreshTokens s) :
    UniqueRefreshTokens
      (createAdmin env s company firstName lastName email phone password).2 := by
  unfold createAdmin
  dsimp only
  split
  · exact hu
  · split
    · exact hu
    · rename_i s1 h1
      have hu1 : UniqueRefreshTokens s1 := by
        unfold UniqueRefreshTokens
        rw [createUser_refreshTokens _ _ _ h1]
        exact hu
      split
      · exact hu1
      · rename_i s2 h2
        have hu2 : UniqueRefreshTokens s2 := by
          unfold UniqueRefreshTokens
          rw [createEmployee_refreshTokens _ _ _ h2]
          exact hu1
        split
        · exact hu2
        · rename_i s3 h3
          exact createRefreshToken_preserves_unique s2 s3 _ hu2 h3

theorem registerUser_preserves_unique (env : Env) (s : Store) (body : RegisterBody)
    (hu : UniqueRefreshTokens s) : UniqueRefreshTokens (registerUser env s body).2 := by
  by_cases hc : s.companies = []
  swap
  · rw [registerUser_of_company env s body hc]; exact hu
  cases hcn : body.companyName with
  | none => rw [registerUser_companyName_absent env s body hc hcn]; exact hu
  | some companyName =>
    by_cases hlen : 2 ≤ jsLength companyName
    swap
    · rw [registerUser_companyName_short env s body companyName hc hcn (by omega)]; exact hu
    cases hem : body.email with
    | none => rw [registerUser_email_absent env s body companyName hc hcn hlen hem]; exact hu
    | some email =>
      cases hfe : findUserByEmail s email with
      | some u =>
        rw [registerUser_email_taken env s body companyName email u hc hcn hlen hem hfe]
        exact hu
      | none =>
        cases hn : body.name with
        | none =>
          rw [registerUser_name_absent env s body companyName email hc hcn hlen hem hfe hn]
          exact hu
        | some name =>
          rw [registerUser_name env s body companyName email name hc hcn hlen hem hfe hn]
          split
          · exact hu
          · exact createAdmin_preserves_unique env _ _ _ _ _ _ _ hu

theorem sendCredentials_refreshTokens (env : Env) (s : Store) (userId : String)
    (admin : UserProfile) :
    (sendCredentials env s userId admin).2.refreshTokens = s.refreshTokens := by
  unfold sendCredentials
  split
  · rfl
  · split
    · rfl
    · dsimp only
      split
      · rfl
      · rename_i s1 hcr
        have hs : s1.refreshTokens = s.refreshTokens := by
          unfold createPasswordResetToken at hcr
          split at hcr
          · cases hcr
          · cases hcr; rfl
        split <;> exact hs

theorem updateUserPassword_refreshTokens (env : Env) (s : Store) (userId : String)
    (password : Option String) (admin : UserProfile) :
    (updateUserPassword env s userId password admin).2.refreshTokens = s.refreshTokens := by
  unfold updateUserPassword
  split
  · rfl
  · split
    · rfl
    · split
      · rfl
      · split
        · rfl
        · split
          · rfl
          · rename_i s1 hup
            unfold updateUserPasswordRow at hup
            split at hup
            · cases hup; rfl
            · cases hup

theorem unique_empty : UniqueRefreshTokens Store.empty := by
  decide

/-! ## `getUsers` -/

theorem newerFirst_total (a b : User) : newerFirst a b ∨ newerFirst b a :=
  Nat.le_total b.createdAt a.createdAt

theorem newerFirst_trans (a b c : User) (hab : newerFirst a b) (hbc : newerFirst b c) :
    newerFirst a c :=
  Nat.le_trans hbc hab

theorem findManyUsers_sorted (s : Store) (w : Option String) :
    (findManyUsers s w).Pairwise newerFirst := by
  haveI : IsTotal User newerFirst := ⟨newerFirst_total⟩
  haveI : IsTrans User newerFirst := ⟨newerFirst_trans⟩
  unfold findManyUsers
  exact List.sorted_insertionSort newerFirst _

theorem findManyUsers_perm (s : Store) (w : Option String) :
    (findManyUsers s w).Perm
      (match w with
       | none => s.users
       | some c => s.users.filter (fun u => u.companyId = some c)) := by
  unfold findManyUsers
  exact List.perm_insertionSort newerFirst _

theorem findManyUsers_map_password (s : Store) (w : Option String) (digest : User → String) :
    findManyUsers { s with users := s.users.map (fun u => { u with password := digest u }) } w
      = (findManyUsers s w).map (fun u => { u with password := digest u }) := by
  unfold findManyUsers
  dsimp only
  have hsort : ∀ l : List User,
      (l.map (fun u => { u with password := digest u })).insertionSort newerFirst
        = (l.insertionSort newerFirst).map (fun u => { u with password := digest u }) := by
    intro l
    exact (List.map_insertionSort newerFirst newerFirst
      (fun u : User => { u with password := digest u }) l (fun a _ b _ => Iff.rfl)).symm
  cases w with
  | none => exact hsort _
  | some c =>
    dsimp only
    rw [List.filter_map]
    exact hsort _

/-- Claim C11.  For every store and acting admin, `getUsers` answers 200 with
one entry per row, holding the id, email, first name, last name, employee id,
role, company id and avatar of that row, for rows that are exactly (up to
order, with multiplicity) all the users when the admin has no company id, as
the code tests it (absent or empty), and the users whose company id is the
admin's otherwise; the rows are ordered by creation time, newest first; the
answer is the same whatever the password digests in the store are; the store
is unchanged. -/
theorem getUsers_scope_and_order (s : Store) (admin : UserProfile) :
    ∃ rows : List User,
      getUsers s admin =
        (.json 200 (successBody (.users (rows.map (fun u =>
          ({ id := u.id, email := u.email, firstName := u.firstName,
             lastName := u.lastName, employeeId := u.employeeId, role := u.role,
             companyId := u.companyId, avatar := u.avatar } : UserSummary))))), s) ∧
      rows.Perm
        (if truthy admin.companyId then
          s.users.filter (fun u => u.companyId = admin.companyId)
        else s.users) ∧
      rows.Pairwise (fun a b => b.createdAt ≤ a.createdAt) ∧
      ∀ digest : User → String,
        (getUsers { s with users := s.users.map (fun u => { u with password := digest u }) }
          admin).1 = (getUsers s admin).1 := by
  refine ⟨findManyUsers s (if truthy admin.companyId then admin.companyId else none),
    rfl, ?_, findManyUsers_sorted s _, ?_⟩
  · have hp := findManyUsers_perm s (if truthy admin.companyId then admin.companyId else none)
    cases hc : admin.companyId with
    | none => simpa [hc, truthy] using hp
    | some c =>
      rw [hc] at hp
      by_cases ht : truthy (some c) = true
      · simpa [ht] using hp
      · simpa [ht] using hp
  · intro digest
    unfold getUsers
    dsimp only
    rw [findManyUsers_map_password, List.map_map]
    rfl

/-- The handler on a store with three users: a company admin sees the two
users of the company, an admin with no company all three, newest first. -/
theorem getUsers_demo :
    (getUsers demoStoreThreeUsers (demoAdmin (some "c1"))).1 =
        .json 200 (successBody (.users [userSummary demoUser2, userSummary demoUser])) ∧
      (getUsers demoStoreThreeUsers (demoAdmin none)).1 =
        .json 200 (successBody (.users
          [userSummary demoUser3, userSummary demoUser2, userSummary demoUser])) := by
  decide

/-! ## The name split of `registerUser` -/

theorem splitSpace_ne_nil (cs : List Char) : splitSpace cs ≠ [] := by
  cases cs with
  | nil => simp [splitSpace]
  | cons c cs =>
    unfold splitSpace
    split
    · simp
    · split <;> simp

theorem splitSpace_head (cs : List Char) :
    (splitSpace cs).headD [] = cs.takeWhile (fun c => c ≠ ' ') := by
  induction cs with
  | nil => rfl
  | cons c cs ih =>
    unfold splitSpace
    by_cases hc : c = ' '
    · simp [hc]
    · rw [if_neg hc]
      cases hs : splitSpace cs with
      | nil => exact absurd hs (splitSpace_ne_nil cs)
      | cons p ps =>
        rw [hs] at ih
        simp only [List.headD_cons] at ih ⊢
        simp [List.takeWhile_cons, hc, ih]

theorem joinSpace_splitSpace (cs : List Char) : joinSpace (splitSpace cs) = cs := by
  induction cs with
  | nil => rfl
  | cons c cs ih =>
    unfold splitSpace
    by_cases hc : c = ' '
    · rw [if_pos hc]
      cases hs : splitSpace cs with
      | nil => exact absurd hs (splitSpace_ne_nil cs)
      | cons q qs =>
        rw [hs] at ih
        simp [joinSpace, ih, hc]
    · rw [if_neg hc]
      cases hs : splitSpace cs with
      | nil => exact absurd hs (splitSpace_ne_nil cs)
      | cons p ps =>
        rw [hs] at ih
        cases ps with
        | nil =>
          simp only [joinSpace] at ih ⊢
          rw [ih]
        | cons q qs =>
          simp only [joinSpace] at ih ⊢
          rw [← ih]
          rfl

theorem joinSpace_splitSpace_tail (cs : List Char) :
    joinSpace ((splitSpace cs).drop 1) = (cs.dropWhile (fun c => c ≠ ' ')).drop 1 := by
  induction cs with
  | nil => rfl
  | cons c cs ih =>
    unfold splitSpace
    by_cases hc : c = ' '
    · simp [hc, joinSpace_splitSpace]
    · rw [if_neg hc]
      cases hs : splitSpace cs with
      | nil => exact absurd hs (splitSpace_ne_nil cs)
      | cons p ps =>
        rw [hs] at ih
        simp only [List.drop_succ_cons, List.drop_zero] at ih ⊢
        simp [List.dropWhile_cons, hc, ih]

theorem dropWhile_head_not (p : Char → Bool) (cs : List Char) (c : Char)
    (h : (cs.dropWhile p).head? = some c) : p c = false := by
  have := List.head?_dropWhile_not p cs
  rw [h] at this
  simpa using this

/-- A trimmed name does not end in white space. -/
theorem trimChars_getLast (cs : List Char) (c : Char)
    (h : (trimChars cs).getLast? = some c) : isJsWhitespace c = false := by
  unfold trimChars at h
  rw [List.getLast?_reverse] at h
  exact dropWhile_head_not isJsWhitespace _ c h

theorem rest_ne_nil_of_space_mem (cs : List Char) (h : ' ' ∈ trimChars cs) :
    ((trimChars cs).dropWhile (fun c => c ≠ ' ')).drop 1 ≠ [] := by
  intro hnil
  have hsplit := List.takeWhile_append_dropWhile (fun c => decide (c ≠ ' ')) (trimChars cs)
  cases hd : (trimChars cs).dropWhile (fun c => decide (c ≠ ' ')) with
  | nil =>
    rw [List.dropWhile_eq_nil_iff] at hd
    have := hd ' ' h
    simp at this
  | cons x rest =>
    rw [hd] at hnil hsplit
    simp only [List.drop_succ_cons, List.drop_zero] at hnil
    subst hnil
    have hx : (fun c => decide (c ≠ ' ')) x = false :=
      dropWhile_head_not _ (trimChars cs) x (by rw [hd]; rfl)
    have hx' : x = ' ' := by simpa using hx
    have hlast : (trimChars cs).getLast? = some x := by
      rw [← hsplit]; simp
    have := trimChars_getLast cs x hlast
    rw [hx'] at this
    exact absurd this (by decide)

theorem firstNameOf_eq_spec (name : String) : firstNameOf name = specFirstName name := by
  unfold firstNameOf specFirstName nameParts
  rw [splitSpace_head]

theorem lastNameOf_eq_spec (name : String) : lastNameOf name = specLastName name := by
  unfold lastNameOf specLastName
  simp only [nameParts, joinSpace_splitSpace_tail]
  by_cases h : ' ' ∈ trimChars name.data
  · rw [if_pos h, if_neg (rest_ne_nil_of_space_mem name.data h)]
  · rw [if_neg h, if_pos, firstNameOf_eq_spec]
    have : (trimChars name.data).dropWhile (fun c => decide (c ≠ ' ')) = [] := by
      rw [List.dropWhile_eq_nil_iff]
      intro x hx
      have : x ≠ ' ' := fun hxs => h (hxs ▸ hx)
      simpa using this
    rw [this]; rfl

theorem createUser_eq_ok (s s1 : Store) (u : User) (h : createUser s u = .ok s1) :
    s1 = { s with users := s.users ++ [u] } := by
  unfold createUser at h
  split at h
  · cases h
  · split at h
    · cases h
    · cases h; rfl

theorem createEmployee_eq_ok (s s1 : Store) (e : Employee) (h : createEmployee s e = .ok s1) :
    s1 = { s with employees := s.employees ++ [e] } := by
  unfold createEmployee at h
  split at h
  · cases h
  · cases h; rfl

/-- What `createAdmin` does to the `User` and `Company` tables: the companies
are kept, and either the users are kept and the answer is a forwarded error,
or one user with the given names and email is added. -/
theorem createAdmin_users (env : Env) (s : Store) (company : Company)
    (firstName lastName email : String) (phone password : Option String) :
    (createAdmin env s company firstName lastName email phone password).2.companies
        = s.companies ∧
      (((createAdmin env s company firstName lastName email phone password).2.users = s.users ∧
          ∃ e, (createAdmin env s company firstName lastName email phone password).1 = .next e) ∨
        ∃ u, (createAdmin env s company firstName lastName email phone password).2.users
            = s.users ++ [u] ∧
          u.firstName = firstName ∧ u.lastName = lastName ∧ u.email = email) := by
  unfold createAdmin
  dsimp only
  split
  · exact ⟨rfl, Or.inl ⟨rfl, _, rfl⟩⟩
  · split
    · exact ⟨rfl, Or.inl ⟨rfl, _, rfl⟩⟩
    · rename_i s1 h1
      have e1 := createUser_eq_ok _ _ _ h1
      split
      · subst e1
        exact ⟨rfl, Or.inr ⟨_, rfl, rfl, rfl, rfl⟩⟩
      · rename_i s2 h2
        have e2 := createEmployee_eq_ok _ _ _ h2
        split
        · subst e2; subst e1
          exact ⟨rfl, Or.inr ⟨_, rfl, rfl, rfl, rfl⟩⟩
        · rename_i s3 h3
          obtain ⟨-, e3⟩ := (createRefreshToken_eq_ok_iff _ _ _).mp h3
          subst e3; subst e2; subst e1
          exact ⟨rfl, Or.inr ⟨_, rfl, rfl, rfl, rfl⟩⟩

theorem findUserByEmail_eq_none_iff (s : Store) (email : String) :
    findUserByEmail s email = none ↔ ∀ u ∈ s.users, u.email ≠ email := by
  simp [findUserByEmail, List.find?_eq_none]

theorem createUser_of_fresh (s : Store) (u : User)
    (hemail : ∀ x ∈ s.users, x.email ≠ u.email)
    (heid : ∀ x ∈ s.users, x.employeeId ≠ u.employeeId) :
    createUser s u = .ok { s with users := s.users ++ [u] } := by
  unfold createUser
  rw [if_neg (by simpa using hemail), if_neg]
  simp only [Bool.and_eq_true, List.any_eq_true, decide_eq_true_eq, not_and, not_exists]
  intro _ x hx
  exact heid x hx

/-- The users after `createAdmin` when the password is present and neither the
email nor the generated employee id is taken: the new row is appended, whatever
the later steps do. -/
theorem createAdmin_creates_user (env : Env) (s : Store) (company : Company)
    (firstName lastName email pw : String) (phone : Option String)
    (hemail : ∀ x ∈ s.users, x.email ≠ email)
    (heid : ∀ x ∈ s.users, x.employeeId ≠
      some (env.generateEmployeeId s company.code firstName lastName (env.clock 1)
        company.id)) :
    (createAdmin env s company firstName lastName email phone (some pw)).2.users =
      s.users ++
        [{ id := env.newUserId, email := email, password := env.hashPassword pw,
           firstName := firstName, lastName := lastName, role := "admin", avatar := none,
           phone := orNull phone, department := some "General", position := some "Owner",
           employeeId := some (env.generateEmployeeId s company.code firstName lastName
             (env.clock 1) company.id),
           companyId := some company.id, createdAt := env.dbNow,
           updatedAt := env.dbNow }] := by
  have hcu := createUser_of_fresh s
    { id := env.newUserId, email := email, password := env.hashPassword pw,
      firstName := firstName, lastName := lastName, role := "admin", avatar := none,
      phone := orNull phone, department := some "General", position := some "Owner",
      employeeId := some (env.generateEmployeeId s company.code firstName lastName
        (env.clock 1) company.id),
      companyId := some company.id, createdAt := env.dbNow, updatedAt := env.dbNow }
    hemail heid
  unfold createAdmin
  simp only [hcu]
  split
  · rfl
  · rename_i s2 h2
    have e2 := createEmployee_eq_ok _ _ _ h2
    split
    · subst e2; rfl
    · rename_i s3 h3
      obtain ⟨-, e3⟩ := (createRefreshToken_eq_ok_iff _ _ _).mp h3
      subst e3; subst e2; rfl

/-- Claim C12.  For a registration request that reaches the name split (no
company in the store, a company name of at least 2 characters, an email that
is present and not registered) with the full name `name`: the first name is
the part of the trimmed name before its first space and the last name the rest
after that space, a name without a space being duplicated into both; the
answer is a 400 exactly when the first or the last name has fewer than 2
characters (counted as JavaScript counts them), it is then the validation
error on the names and no user is created; otherwise either an error is
forwarded and no user is created, or exactly one user is created, with these
first and last names, and one is created whenever the password is present and
the generated employee id is not taken: the row then carries these names, the
email, the hash of the password and the role `admin`. -/
theorem registerUser_name_split (env : Env) (s : Store) (body : RegisterBody)
    (companyName email name : String)
    (hc : s.companies = []) (hcn : body.companyName = some companyName)
    (hlen : 2 ≤ jsLength companyName) (hem : body.email = some email)
    (hfe : ∀ u ∈ s.users, u.email ≠ email) (hn : body.name = some name) :
    firstNameOf name = specFirstName name ∧
      lastNameOf name = specLastName name ∧
      (' ' ∉ trimChars name.data → lastNameOf name = firstNameOf name) ∧
      ((registerUser env s body).1.status? = some 400 ↔
        (jsLength (firstNameOf name) < 2 ∨ jsLength (lastNameOf name) < 2)) ∧
      ((jsLength (firstNameOf name) < 2 ∨ jsLength (lastNameOf name) < 2) →
        (registerUser env s body).1 =
            .json 400 (errorBody
              "First name and last name must each be at least 2 characters long"
              "Validation Error") ∧
          (registerUser env s body).2.users = s.users) ∧
      (¬ (jsLength (firstNameOf name) < 2 ∨ jsLength (lastNameOf name) < 2) →
        (((registerUser env s body).2.users = s.users ∧
            ∃ e, (registerUser env s body).1 = .next e) ∨
          ∃ u, (registerUser env s body).2.users = s.users ++ [u] ∧
            u.firstName = firstNameOf name ∧ u.lastName = lastNameOf name) ∧
        ∀ pw, body.password = some pw →
          (∀ x ∈ s.users, x.employeeId ≠
            some (env.generateEmployeeId
              { s with companies :=
                  [{ id := env.newCompanyId, name := companyName,
                     code := env.generateCompanyCode s companyName,
                     logo := orNull body.companyLogo }] }
              (env.generateCompanyCode s companyName) (firstNameOf name) (lastNameOf name)
              (env.clock 1) env.newCompanyId)) →
          ∃ u, (registerUser env s body).2.users = s.users ++ [u] ∧
            u.firstName = firstNameOf name ∧ u.lastName = lastNameOf name ∧
            u.email = email ∧ u.password = env.hashPassword pw ∧ u.role = "admin") := by
  have hfe' := (findUserByEmail_eq_none_iff s email).mpr hfe
  have hreg := registerUser_name env s body companyName email name hc hcn hlen hem hfe' hn
  refine ⟨firstNameOf_eq_spec name, lastNameOf_eq_spec name, ?_, ?_, ?_, ?_⟩
  · intro hns
    rw [lastNameOf_eq_spec, firstNameOf_eq_spec]
    unfold specLastName
    rw [if_neg hns]
  · constructor
    · intro h400
      by_contra hshort
      rw [hreg, if_neg hshort] at h400
      exact createAdmin_not_400 env _ _ _ _ _ _ _ h400
    · intro hshort
      rw [hreg, if_pos hshort]
      rfl
  · intro hshort
    rw [hreg, if_pos hshort]
    exact ⟨rfl, rfl⟩
  · intro hshort
    rw [hreg, if_neg hshort]
    refine ⟨?_, ?_⟩
    · obtain ⟨-, hu⟩ := createAdmin_users env
        { s with companies :=
            [{ id := env.newCompanyId, name := companyName,
               code := env.generateCompanyCode s companyName,
               logo := orNull body.companyLogo }] }
        { id := env.newCompanyId, name := companyName,
          code := env.generateCompanyCode s companyName, logo := orNull body.companyLogo }
        (firstNameOf name) (lastNameOf name) email body.phone body.password
      rcases hu with ⟨h1, h2⟩ | ⟨u, h1, h2, h3, -⟩
      · exact Or.inl ⟨h1, h2⟩
      · exact Or.inr ⟨u, h1, h2, h3⟩
    · intro pw hpw heid
      rw [hpw]
      exact ⟨_, createAdmin_creates_user env
        { s with companies :=
            [{ id := env.newCompanyId, name := companyName,
               code := env.generateCompanyCode s companyName,
               logo := orNull body.companyLogo }] }
        { id := env.newCompanyId, name := companyName,
          code := env.generateCompanyCode s companyName, logo := orNull body.companyLogo }
        (firstNameOf name) (lastNameOf name) email pw body.phone hfe heid,
        rfl, rfl, rfl, rfl, rfl⟩

/-- Witness of C12: the spec's example request against the empty store, where
the user `Jane` `Doe` is created. -/
theorem registerUser_name_split_witness :
    Store.empty.companies = [] ∧ demoBody.companyName = some "Acme Corp" ∧
      2 ≤ jsLength "Acme Corp" ∧ demoBody.email = some "jane@acme.com" ∧
      (∀ u ∈ Store.empty.users, u.email ≠ "jane@acme.com") ∧
      demoBody.name = some "Jane Doe" ∧
      firstNameOf "Jane Doe" = "Jane" ∧ lastNameOf "Jane Doe" = "Doe" ∧
      ∃ u, (registerUser demoEnv Store.empty demoBody).2.users = Store.empty.users ++ [u] ∧
        u.firstName = firstNameOf "Jane Doe" ∧ u.lastName = lastNameOf "Jane Doe" ∧
        u.email = "jane@acme.com" ∧ u.password = demoEnv.hashPassword "securePass1" ∧
        u.role = "admin" :=
  ⟨by decide, by decide, by decide, by decide, by decide, by decide, by decide, by decide,
    ((registerUser_name_split demoEnv Store.empty demoBody "Acme Corp" "jane@acme.com"
      "Jane Doe" (by decide) (by decide) (by decide) (by decide) (by decide)
      (by decide)).2.2.2.2.2 (by decide)).2 "securePass1" (by decide) (by decide)⟩

/-- The names of the user the spec's example creates, and of a one-word name. -/
theorem registerUser_names_demo :
    (registerUser demoEnv Store.empty demoBody).2.users.map (fun u => (u.firstName, u.lastName))
        = [("Jane", "Doe")] ∧
      (registerUser demoEnv Store.empty { demoBody with name := some " Madonna " }).2.users.map
        (fun u => (u.firstName, u.lastName)) = [("Madonna", "Madonna")] := by
  decide

/-! ## The company code of `registerUser` -/

theorem findCompanyByName_of_no_company (s : Store) (n : String) (hc : s.companies = []) :
    findCompanyByName s n = none := by
  simp [findCompanyByName, hc]

theorem createCompany_of_no_company (s : Store) (c : Company) (hc : s.companies = []) :
    createCompany s c = .ok { s with companies := [c] } := by
  simp [createCompany, hc]

/-- The companies after `registerUser` from a store with none: none, or the one
company made with the generated code. -/
theorem registerUser_companies (env : Env) (s : Store) (body : RegisterBody)
    (hc : s.companies = []) :
    (registerUser env s body).2.companies = [] ∨
      ∃ n, body.companyName = some n ∧
        (registerUser env s body).2.companies =
          [{ id := env.newCompanyId, name := n, code := env.generateCompanyCode s n,
             logo := orNull body.companyLogo }] := by
  cases hcn : body.companyName with
  | none =>
    rw [registerUser_companyName_absent env s body hc hcn]
    exact Or.inl hc
  | some companyName =>
    by_cases hlen : 2 ≤ jsLength companyName
    swap
    · rw [registerUser_companyName_short env s body companyName hc hcn (by omega)]
      exact Or.inl hc
    cases hem : body.email with
    | none =>
      rw [registerUser_email_absent env s body companyName hc hcn hlen hem]
      exact Or.inl hc
    | some email =>
      cases hfe : findUserByEmail s email with
      | some u =>
        rw [registerUser_email_taken env s body companyName email u hc hcn hlen hem hfe]
        exact Or.inl hc
      | none =>
        refine Or.inr ⟨companyName, rfl, ?_⟩
        cases hn : body.name with
        | none =>
          rw [registerUser_name_absent env s body companyName email hc hcn hlen hem hfe hn]
        | some name =>
          rw [registerUser_name env s body companyName email name hc hcn hlen hem hfe hn]
          split
          · rfl
          · exact (createAdmin_users env _ _ _ _ _ _ _).1

/-- Claim C13.  In this sequential model, where `generateCompanyCode` reads
the store and does not write it, whenever `registerUser` passes the gate (the
store has no company): the lookup of the company by name returns none; the
first `company.create` succeeds, whatever the row; so finding or creating the
company yields the company with the code `generateCompanyCode` returned, and
the ingredients of the fallback code (upper-casing, the clock) have no effect
on it; and after the handler the companies are none or exactly that one. -/
theorem registerUser_company_code (env : Env) (s : Store) (body : RegisterBody)
    (hc : s.companies = []) :
    (∀ n, findCompanyByName s n = none) ∧
      (∀ c, createCompany s c = .ok { s with companies := [c] }) ∧
      (∀ n logo, findOrCreateCompany env s n logo =
        .ok ({ id := env.newCompanyId, name := n, code := env.generateCompanyCode s n,
               logo := orNull logo },
             { s with companies :=
                 [{ id := env.newCompanyId, name := n, code := env.generateCompanyCode s n,
                    logo := orNull logo }] })) ∧
      (∀ (upper : List Nat → String) (clock : Nat → Nat) n logo,
        findOrCreateCompany { env with toUpperCase := upper, clock := clock } s n logo =
          findOrCreateCompany env s n logo) ∧
      ((registerUser env s body).2.companies = [] ∨
        ∃ n, body.companyName = some n ∧
          (registerUser env s body).2.companies =
            [{ id := env.newCompanyId, name := n, code := env.generateCompanyCode s n,
               logo := orNull body.companyLogo }]) := by
  refine ⟨fun n => findCompanyByName_of_no_company s n hc,
    fun c => createCompany_of_no_company s c hc,
    fun n logo => findOrCreateCompany_of_no_company env s n logo hc, ?_,
    registerUser_companies env s body hc⟩
  intro upper clock n logo
  rw [findOrCreateCompany_of_no_company env s n logo hc,
    findOrCreateCompany_of_no_company _ s n logo hc]

/-- Witness of C13: the spec's example request against the empty store. -/
theorem registerUser_company_code_witness :
    Store.empty.companies = [] ∧
    ((∀ n, findCompanyByName Store.empty n = none) ∧
      (∀ c, createCompany Store.empty c = .ok { Store.empty with companies := [c] }) ∧
      (∀ n logo, findOrCreateCompany demoEnv Store.empty n logo =
        .ok ({ id := demoEnv.newCompanyId, name := n,
               code := demoEnv.generateCompanyCode Store.empty n, logo := orNull logo },
             { Store.empty with companies :=
                 [{ id := demoEnv.newCompanyId, name := n,
                    code := demoEnv.generateCompanyCode Store.empty n,
                    logo := orNull logo }] })) ∧
      (∀ (upper : List Nat → String) (clock : Nat → Nat) n logo,
        findOrCreateCompany { demoEnv with toUpperCase := upper, clock := clock }
            Store.empty n logo =
          findOrCreateCompany demoEnv Store.empty n logo) ∧
      ((registerUser demoEnv Store.empty demoBody).2.companies = [] ∨
        ∃ n, demoBody.companyName = some n ∧
          (registerUser demoEnv Store.empty demoBody).2.companies =
            [{ id := demoEnv.newCompanyId, name := n,
               code := demoEnv.generateCompanyCode Store.empty n,
               logo := orNull demoBody.companyLogo }])) :=
  ⟨by decide, registerUser_company_code demoEnv Store.empty demoBody (by decide)⟩

/-- The company the spec's example creates carries the generated code. -/
theorem registerUser_company_demo :
    (registerUser demoEnv Store.empty demoBody).2.companies =
      [{ id := "c1", name := "Acme Corp",
         code := demoEnv.generateCompanyCode Store.empty "Acme Corp", logo := none }] := by
  decide

end WorkZen
